import Mathlib

/-!
Verification of the Themifier color-theming engine.

Shallow embedding of the color model (src/utils/color), the color matrix
engine, the color transform engine (src/services/colorTransform.ts), the
palette registration module (src/services/palette.ts), the color registry,
the dynamic-theme-engine registry effects, the mutation loop guard, and the
CSS-processor contrast repair.

Modelling conventions:
- JavaScript numbers are modelled as rationals (`ℚ`); the few places where
  the source computes irrational values (`Math.pow(2, 1/gamma - 1)` in the
  matrix engine, `Math.pow(x, 2.4)` in the WCAG luminance) are modelled over
  the reals (`ℝ`).
- `Math.round` is round-half-up: `⌊x + 1/2⌋`.
- JavaScript `Map` objects are modelled as association lists with
  insert-or-replace-in-place semantics; string keys built by serialising
  numbers (for example the registry key "r,g,b,a") are modelled by the
  corresponding tuples, since serialisation of distinct number values gives
  distinct strings.
- `NaN` escaping from `parseInt` is modelled with `Option`: a channel value
  `none` is NaN.
-/

namespace Themifier

/-- JavaScript Math.round: round half toward positive infinity. -/
def jsRound (q : ℚ) : ℤ := ⌊q + 1/2⌋

/-- Math.round on a real argument (used after the real-valued matrix step). -/
noncomputable def jsRoundR (x : ℝ) : ℤ := ⌊x + 1/2⌋

/-- Truncation toward zero, as JavaScript coerces in the % operator. -/
def ratTrunc (q : ℚ) : ℤ := if 0 ≤ q then ⌊q⌋ else -⌊-q⌋

/-- JavaScript remainder operator a % b (sign follows the dividend). -/
def jsRem (a b : ℚ) : ℚ := a - b * ratTrunc (a / b)

/-! ## Color model: src/unnamed/part_000 (utils/color) -/

/-- RGBA color, channels 0-255, alpha 0-1 (source interface RGBA). -/
structure RGBA where
  r : ℚ
  g : ℚ
  b : ℚ
  a : ℚ
  deriving DecidableEq, Repr

/-- HSLA color, hue 0-360, saturation/lightness 0-1 (source interface HSLA). -/
structure HSLA where
  h : ℚ
  s : ℚ
  l : ℚ
  a : ℚ
  deriving DecidableEq, Repr

/-- Source rgbToHSL: convert RGB to HSL color space. -/
def rgbToHSL (rgb : RGBA) : HSLA :=
  let r := rgb.r / 255
  let g := rgb.g / 255
  let b := rgb.b / 255
  let mx := max r (max g b)
  let mn := min r (min g b)
  let c := mx - mn
  let l := (mx + mn) / 2
  if c = 0 then ⟨0, 0, l, rgb.a⟩
  else
    let h0 := if mx = r then jsRem ((g - b) / c) 6
              else if mx = g then (b - r) / c + 2
              else (r - g) / c + 4
    let h1 := h0 * 60
    let h := if h1 < 0 then h1 + 360 else h1
    let s := c / (1 - |2 * l - 1|)
    ⟨h, s, l, rgb.a⟩

/-- Branch table of hslToRGB: the (r,g,b) triple before adding m, selected by
the hue window. -/
def hueTriple (h c x : ℚ) : ℚ × ℚ × ℚ :=
  if h < 60 then (c, x, 0)
  else if h < 120 then (x, c, 0)
  else if h < 180 then (0, c, x)
  else if h < 240 then (0, x, c)
  else if h < 300 then (x, 0, c)
  else (c, 0, x)

/-- Source hslToRGB: convert HSL to RGB color space. -/
def hslToRGB (hsl : HSLA) : RGBA :=
  if hsl.s = 0 then
    let gray : ℚ := jsRound (hsl.l * 255)
    ⟨gray, gray, gray, hsl.a⟩
  else
    let c := (1 - |2 * hsl.l - 1|) * hsl.s
    let x := c * (1 - |jsRem (hsl.h / 60) 2 - 1|)
    let m := hsl.l - c / 2
    let t := hueTriple hsl.h c x
    ⟨(jsRound ((t.1 + m) * 255) : ℤ), (jsRound ((t.2.1 + m) * 255) : ℤ),
     (jsRound ((t.2.2 + m) * 255) : ℤ), hsl.a⟩

/-- Source clamp: clamp value between min and max. -/
def clamp (value mn mx : ℚ) : ℚ := min (max value mn) mx

/-- Source scale restricted to the generic inMax ≠ inMin path, on which it
agrees with the NaN-faithful total model scaleN below (theorem
scaleN_eq_scale); the HSL modifiers only call it with literal nonzero input
spans. -/
def scale (value inMin inMax outMin outMax : ℚ) : ℚ :=
  clamp (outMin + (value - inMin) * (outMax - outMin) / (inMax - inMin))
    (min outMin outMax) (max outMin outMax)

/-- A JS number as produced by the scale computation: a finite value, a
signed infinity (nonzero numerator divided by the +0 that inMax - inMin of
equal finite numbers yields), or NaN (the 0/0 case). -/
inductive JSNum where
  | fin (q : ℚ)
  | posInf
  | negInf
  | nan
  deriving DecidableEq, Repr

/-- Math.max of a JS number and a finite bound: NaN propagates, +Infinity
dominates, -Infinity yields the bound. -/
def JSNum.jsMax (v : JSNum) (lo : ℚ) : JSNum :=
  match v with
  | .fin q => .fin (max q lo)
  | .posInf => .posInf
  | .negInf => .fin lo
  | .nan => .nan

/-- Math.min of a JS number and a finite bound: NaN propagates, -Infinity
dominates, +Infinity yields the bound. -/
def JSNum.jsMin (v : JSNum) (hi : ℚ) : JSNum :=
  match v with
  | .fin q => .fin (min q hi)
  | .posInf => .fin hi
  | .negInf => .negInf
  | .nan => .nan

/-- Source clamp on a JS number: Math.min(Math.max(value, min), max). -/
def clampN (value : JSNum) (mn mx : ℚ) : JSNum := (value.jsMax mn).jsMin mx

/-- JS division of finite operands as it appears in scale: a zero
denominator with nonzero numerator gives a sign-matching infinity, and 0/0
gives NaN. -/
def jsDivF (num den : ℚ) : JSNum :=
  if den = 0 then
    if num = 0 then .nan
    else if 0 < num then .posInf
    else .negInf
  else .fin (num / den)

/-- outMin + (...) over JS numbers (outMin finite): NaN and the infinities
absorb the addition. -/
def jsAddL (b : ℚ) (v : JSNum) : JSNum :=
  match v with
  | .fin q => .fin (b + q)
  | .posInf => .posInf
  | .negInf => .negInf
  | .nan => .nan

/-- Source scale, NaN-faithful: clamp(outMin + (value - inMin) * (outMax -
outMin) / (inMax - inMin), min(outMin, outMax), max(outMin, outMax)) with
JS division semantics when inMax = inMin. -/
def scaleN (value inMin inMax outMin outMax : ℚ) : JSNum :=
  clampN (jsAddL outMin (jsDivF ((value - inMin) * (outMax - outMin)) (inMax - inMin)))
    (min outMin outMax) (max outMin outMax)

/-! ### String parsing helpers (JavaScript primitives) -/

/-- ASCII model of the JavaScript whitespace class. -/
def isJsWS (c : Char) : Bool :=
  c = ' ' || c = '\t' || c = '\n' || c = '\r' || c = '\x0b' || c = '\x0c'

/-- ASCII model of JavaScript toLowerCase on one character. -/
def jsToLower (c : Char) : Char :=
  if 'A' ≤ c ∧ c ≤ 'Z' then Char.ofNat (c.toNat + 32) else c

/-- JavaScript String.prototype.toLowerCase (ASCII model). -/
def strToLower (s : String) : String := ⟨s.toList.map jsToLower⟩

/-- JavaScript String.prototype.startsWith. -/
def strStartsWith (s pat : String) : Bool := pat.toList.isPrefixOf s.toList

/-- JavaScript String.prototype.endsWith. -/
def strEndsWith (s pat : String) : Bool := pat.toList.reverse.isPrefixOf s.toList.reverse

/-- JavaScript String.prototype.trim. -/
def jsTrim (s : String) : String :=
  ⟨(s.toList.dropWhile isJsWS).reverse.dropWhile isJsWS |>.reverse⟩

/-- Value of a base-16 digit character accepted by parseInt. -/
def hexDigitVal (c : Char) : Option ℕ :=
  if '0' ≤ c ∧ c ≤ '9' then some (c.toNat - '0'.toNat)
  else if 'a' ≤ c ∧ c ≤ 'f' then some (c.toNat - 'a'.toNat + 10)
  else if 'A' ≤ c ∧ c ≤ 'F' then some (c.toNat - 'A'.toNat + 10)
  else none

/-- JavaScript parseInt(s, 16): skip leading whitespace, optional sign,
optional 0x prefix, then the longest run of hex digits; NaN (none) when no
digit is found. -/
def jsParseIntHex (s : String) : Option ℤ :=
  let cs := s.toList.dropWhile isJsWS
  let (sign, cs) : ℤ × List Char :=
    match cs with
    | '-' :: tl => (-1, tl)
    | '+' :: tl => (1, tl)
    | _ => (1, cs)
  let cs := match cs with
    | '0' :: 'x' :: tl => tl
    | '0' :: 'X' :: tl => tl
    | _ => cs
  let digits := cs.takeWhile (fun c => (hexDigitVal c).isSome)
  if digits = [] then none
  else some (sign * digits.foldl (fun acc c => acc * 16 + ((hexDigitVal c).getD 0)) 0)

/-- JavaScript parseFloat: skip leading whitespace, optional sign, longest
decimal-number prefix (digits, optional fraction, optional exponent whose
digits must be present for it to be consumed); NaN (none) when no digit is
found. The Infinity literal is not modelled. -/
def jsParseFloat (s : String) : Option ℚ :=
  let cs := s.toList.dropWhile isJsWS
  let (sign, cs) : ℚ × List Char :=
    match cs with
    | '-' :: tl => (-1, tl)
    | '+' :: tl => (1, tl)
    | _ => (1, cs)
  let intDigits := cs.takeWhile Char.isDigit
  let rest1 := cs.drop intDigits.length
  let (fracDigits, rest2) : List Char × List Char :=
    match rest1 with
    | '.' :: tl => (tl.takeWhile Char.isDigit, tl.drop (tl.takeWhile Char.isDigit).length)
    | _ => ([], rest1)
  if intDigits = [] ∧ fracDigits = [] then none
  else
    let digitsVal : List Char → ℚ := fun l => ((l.foldl (fun acc c => acc * 10 + (c.toNat - '0'.toNat)) 0 : ℕ) : ℚ)
    let mantissa : ℚ := digitsVal intDigits + digitsVal fracDigits / (10 : ℚ) ^ fracDigits.length
    let expVal : ℤ :=
      match rest2 with
      | 'e' :: tl | 'E' :: tl =>
        let (esign, tl2) : ℤ × List Char :=
          match tl with
          | '-' :: tl2 => (-1, tl2)
          | '+' :: tl2 => (1, tl2)
          | _ => (1, tl)
        let eDigits := tl2.takeWhile Char.isDigit
        if eDigits = [] then 0
        else esign * ((eDigits.foldl (fun acc c => acc * 10 + (c.toNat - '0'.toNat)) 0 : ℕ) : ℤ)
      | _ => 0
    let factor : ℚ :=
      if 0 ≤ expVal then (10 : ℚ) ^ expVal.toNat else 1 / (10 : ℚ) ^ (-expVal).toNat
    some (sign * mantissa * factor)

theorem length_dropWhile_le (p : Char → Bool) (l : List Char) :
    (l.dropWhile p).length ≤ l.length := by
  induction l with
  | nil => simp [List.dropWhile]
  | cons c tl ih =>
    simp only [List.dropWhile]
    split
    · exact le_trans ih (by simp)
    · simp

/-- One step of the split on the separator regex: a separator consumes a
whitespace run, then at most one comma, then another whitespace run. -/
def splitSep (cs : List Char) : List Char :=
  let r1 := cs.dropWhile isJsWS
  match r1 with
  | ',' :: tl => tl.dropWhile isJsWS
  | _ => r1

theorem splitSep_length_lt (c : Char) (rest : List Char)
    (hc : isJsWS c || c = ',') : (splitSep (c :: rest)).length < (c :: rest).length := by
  simp only [splitSep]
  by_cases hws : isJsWS c
  · have hdw : (c :: rest).dropWhile isJsWS = rest.dropWhile isJsWS := by
      simp [List.dropWhile, hws]
    rw [hdw]
    have h1 := length_dropWhile_le isJsWS rest
    rcases hmatch : rest.dropWhile isJsWS with _ | ⟨d, tl⟩
    · simp
    · rw [hmatch] at h1
      split
      · rename_i heq
        have h2 := length_dropWhile_le isJsWS tl
        have : tl.length < rest.length + 1 := by
          have : d :: tl = ',' :: _ := heq
          simp at h1
          omega
        simp only [List.length_cons]
        cases heq
        omega
      · simp only [List.length_cons] at h1 ⊢
        omega
  · have hcc : c = ',' := by
      simp [hws] at hc
      exact hc
    have hdw : (c :: rest).dropWhile isJsWS = c :: rest := by
      simp [List.dropWhile, hws]
    rw [hdw]
    subst hcc
    have := length_dropWhile_le isJsWS rest
    simp only [List.length_cons]
    omega

/-- Splitting a component list on the separator class (comma or whitespace,
each with surrounding whitespace), as the source split regex does. The fuel
argument only serves structural termination; splitColorParts supplies enough
for it never to run out (each step consumes at least one character). -/
def splitParts : ℕ → List Char → List Char → List (List Char)
  | 0, _, acc => [acc.reverse]
  | _ + 1, [], acc => [acc.reverse]
  | fuel + 1, c :: rest, acc =>
    if isJsWS c || c = ',' then
      acc.reverse :: splitParts fuel (splitSep (c :: rest)) []
    else
      splitParts fuel rest (c :: acc)

/-- Component split of the source parseRGB and parseHSL, including the final
per-part trim. -/
def splitColorParts (s : String) : List String :=
  (splitParts (s.toList.length + 1) s.toList []).map fun l => jsTrim ⟨l⟩

/-- Attempt the tail of the color-function regex at a position: whitespace,
an opening parenthesis, optional whitespace, then a nonempty capture of
characters up to the closing parenthesis. Returns the capture group. -/
def matchParen (cs : List Char) : Option String :=
  let cs := cs.dropWhile isJsWS
  match cs with
  | '(' :: tl =>
    let ws := tl.takeWhile isJsWS
    let afterWS := tl.drop ws.length
    let content := afterWS.takeWhile (fun c => c ≠ ')')
    let closed := afterWS.drop content.length
    match closed with
    | ')' :: _ =>
      if content ≠ [] then some ⟨content⟩
      else if ws ≠ [] then some ⟨[ws.getLastD ' ']⟩
      else none
    | _ => none
  | _ => none

/-- Scan for the first match of the pattern NAME a? ws* ( ws* capture ),
mirroring the source regex for rgb()/rgba() and hsl()/hsla(). -/
def findColorCapture (name : List Char) : List Char → Option String
  | [] => none
  | c :: rest =>
    let here :=
      if name.isPrefixOf (c :: rest) then
        let afterName := (c :: rest).drop name.length
        match afterName with
        | 'a' :: tl =>
          match matchParen tl with
          | some cap => some cap
          | none => matchParen afterName
        | _ => matchParen afterName
      else none
    match here with
    | some cap => some cap
    | none => findColorCapture name rest

/-! ### Parsing of color strings (source part_000) -/

/-- RGBA as it leaves the source parseHex: each channel is a JavaScript
number that may be NaN, modelled as Option (none is NaN). -/
structure RGBAn where
  r : Option ℚ
  g : Option ℚ
  b : Option ℚ
  a : Option ℚ
  deriving DecidableEq, Repr

/-- Embed a well-formed RGBA into the NaN-aware parse result type. -/
def RGBA.toN (rgb : RGBA) : RGBAn := ⟨some rgb.r, some rgb.g, some rgb.b, some rgb.a⟩

/-- Recover a well-formed RGBA when no channel is NaN. -/
def RGBAn.toRGBA : RGBAn → Option RGBA
  | ⟨some r, some g, some b, some a⟩ => some ⟨r, g, b, a⟩
  | _ => none

/-- Source parseHex: parse a hex color string. parseInt on a non-hex digit
yields NaN, which the source does not guard against, so channels are
NaN-aware. -/
def parseHex (hex : String) : Option RGBAn :=
  let h := if strStartsWith hex "#" then ⟨hex.toList.drop 1⟩ else hex
  let cs := h.toList
  match cs.length with
  | 3 =>
    let ch := fun i => (jsParseIntHex ⟨[cs.getD i ' ', cs.getD i ' ']⟩).map (fun z => (z : ℚ))
    some ⟨ch 0, ch 1, ch 2, some 1⟩
  | 4 =>
    let ch := fun i => (jsParseIntHex ⟨[cs.getD i ' ', cs.getD i ' ']⟩).map (fun z => (z : ℚ))
    some ⟨ch 0, ch 1, ch 2, (ch 3).map (· / 255)⟩
  | 6 =>
    let ch := fun i => (jsParseIntHex ⟨(cs.drop i).take 2⟩).map (fun z => (z : ℚ))
    some ⟨ch 0, ch 2, ch 4, some 1⟩
  | 8 =>
    let ch := fun i => (jsParseIntHex ⟨(cs.drop i).take 2⟩).map (fun z => (z : ℚ))
    some ⟨ch 0, ch 2, ch 4, (ch 6).map (· / 255)⟩
  | _ => none

/-- Source parseRGB: parse rgb()/rgba() strings. NaN components are guarded
by the isNaN check, so the result is a well-formed RGBA. -/
def parseRGB (rgb : String) : Option RGBA := do
  let cap ← findColorCapture "rgb".toList rgb.toList
  let parts := splitColorParts cap
  if parts.length < 3 then none
  else
    let comp := fun (p : String) =>
      if strEndsWith p "%" then (jsParseFloat p).map (fun q => q / 100 * 255)
      else jsParseFloat p
    let r ← comp (parts.getD 0 "")
    let g ← comp (parts.getD 1 "")
    let b ← comp (parts.getD 2 "")
    let a ← if parts.length ≥ 4 then jsParseFloat (parts.getD 3 "") else some 1
    some ⟨r, g, b, a⟩

/-- Whether pat occurs as a substring of s (JavaScript String.includes). -/
def jsIncludes (s pat : String) : Bool :=
  (List.range (s.toList.length + 1)).any fun i => pat.toList.isPrefixOf (s.toList.drop i)

/-- Math.PI as the exact rational value of the IEEE-754 double. -/
def jsPI : ℚ := 884279719003555 / 281474976710656

/-- Source parseHSL: parse hsl()/hsla() strings (deg, rad and turn hue
units), delegating to hslToRGB. -/
def parseHSL (hsl : String) : Option RGBA := do
  let cap ← findColorCapture "hsl".toList hsl.toList
  let parts := splitColorParts cap
  if parts.length < 3 then none
  else
    let p0 := parts.getD 0 ""
    let h0 ← jsParseFloat p0
    let h : ℚ :=
      if jsIncludes p0 "deg" then h0
      else if jsIncludes p0 "rad" then h0 * 180 / jsPI
      else if jsIncludes p0 "turn" then h0 * 360
      else h0
    let p1 := parts.getD 1 ""
    let p2 := parts.getD 2 ""
    let s ← (jsParseFloat p1).map (fun q => q / (if jsIncludes p1 "%" then 100 else 1))
    let l ← (jsParseFloat p2).map (fun q => q / (if jsIncludes p2 "%" then 100 else 1))
    let a ← if parts.length ≥ 4 then jsParseFloat (parts.getD 3 "") else some 1
    some (hslToRGB ⟨h, s, l, a⟩)

/-- Source knownColors: the CSS named-color table (name to 24-bit value). -/
def knownColors : List (String × ℕ) :=
  [("aliceblue", 0xf0f8ff), ("antiquewhite", 0xfaebd7), ("aqua", 0x00ffff),
   ("aquamarine", 0x7fffd4), ("azure", 0xf0ffff), ("beige", 0xf5f5dc),
   ("bisque", 0xffe4c4), ("black", 0x000000), ("blanchedalmond", 0xffebcd),
   ("blue", 0x0000ff), ("blueviolet", 0x8a2be2), ("brown", 0xa52a2a),
   ("burlywood", 0xdeb887), ("cadetblue", 0x5f9ea0), ("chartreuse", 0x7fff00),
   ("chocolate", 0xd2691e), ("coral", 0xff7f50), ("cornflowerblue", 0x6495ed),
   ("cornsilk", 0xfff8dc), ("crimson", 0xdc143c), ("cyan", 0x00ffff),
   ("darkblue", 0x00008b), ("darkcyan", 0x008b8b), ("darkgoldenrod", 0xb8860b),
   ("darkgray", 0xa9a9a9), ("darkgrey", 0xa9a9a9), ("darkgreen", 0x006400),
   ("darkkhaki", 0xbdb76b), ("darkmagenta", 0x8b008b), ("darkolivegreen", 0x556b2f),
   ("darkorange", 0xff8c00), ("darkorchid", 0x9932cc), ("darkred", 0x8b0000),
   ("darksalmon", 0xe9967a), ("darkseagreen", 0x8fbc8f), ("darkslateblue", 0x483d8b),
   ("darkslategray", 0x2f4f4f), ("darkslategrey", 0x2f4f4f), ("darkturquoise", 0x00ced1),
   ("darkviolet", 0x9400d3), ("deeppink", 0xff1493), ("deepskyblue", 0x00bfff),
   ("dimgray", 0x696969), ("dimgrey", 0x696969), ("dodgerblue", 0x1e90ff),
   ("firebrick", 0xb22222), ("floralwhite", 0xfffaf0), ("forestgreen", 0x228b22),
   ("fuchsia", 0xff00ff), ("gainsboro", 0xdcdcdc), ("ghostwhite", 0xf8f8ff),
   ("gold", 0xffd700), ("goldenrod", 0xdaa520), ("gray", 0x808080),
   ("grey", 0x808080), ("green", 0x008000), ("greenyellow", 0xadff2f),
   ("honeydew", 0xf0fff0), ("hotpink", 0xff69b4), ("indianred", 0xcd5c5c),
   ("indigo", 0x4b0082), ("ivory", 0xfffff0), ("khaki", 0xf0e68c),
   ("lavender", 0xe6e6fa), ("lavenderblush", 0xfff0f5), ("lawngreen", 0x7cfc00),
   ("lemonchiffon", 0xfffacd), ("lightblue", 0xadd8e6), ("lightcoral", 0xf08080),
   ("lightcyan", 0xe0ffff), ("lightgoldenrodyellow", 0xfafad2), ("lightgray", 0xd3d3d3),
   ("lightgrey", 0xd3d3d3), ("lightgreen", 0x90ee90), ("lightpink", 0xffb6c1),
   ("lightsalmon", 0xffa07a), ("lightseagreen", 0x20b2aa), ("lightskyblue", 0x87cefa),
   ("lightslategray", 0x778899), ("lightslategrey", 0x778899), ("lightsteelblue", 0xb0c4de),
   ("lightyellow", 0xffffe0), ("lime", 0x00ff00), ("limegreen", 0x32cd32),
   ("linen", 0xfaf0e6), ("magenta", 0xff00ff), ("maroon", 0x800000),
   ("mediumaquamarine", 0x66cdaa), ("mediumblue", 0x0000cd), ("mediumorchid", 0xba55d3),
   ("mediumpurple", 0x9370db), ("mediumseagreen", 0x3cb371), ("mediumslateblue", 0x7b68ee),
   ("mediumspringgreen", 0x00fa9a), ("mediumturquoise", 0x48d1cc), ("mediumvioletred", 0xc71585),
   ("midnightblue", 0x191970), ("mintcream", 0xf5fffa), ("mistyrose", 0xffe4e1),
   ("moccasin", 0xffe4b5), ("navajowhite", 0xffdead), ("navy", 0x000080),
   ("oldlace", 0xfdf5e6), ("olive", 0x808000), ("olivedrab", 0x6b8e23),
   ("orange", 0xffa500), ("orangered", 0xff4500), ("orchid", 0xda70d6),
   ("palegoldenrod", 0xeee8aa), ("palegreen", 0x98fb98), ("paleturquoise", 0xafeeee),
   ("palevioletred", 0xdb7093), ("papayawhip", 0xffefd5), ("peachpuff", 0xffdab9),
   ("peru", 0xcd853f), ("pink", 0xffc0cb), ("plum", 0xdda0dd),
   ("powderblue", 0xb0e0e6), ("purple", 0x800080), ("rebeccapurple", 0x663399),
   ("red", 0xff0000), ("rosybrown", 0xbc8f8f), ("royalblue", 0x4169e1),
   ("saddlebrown", 0x8b4513), ("salmon", 0xfa8072), ("sandybrown", 0xf4a460),
   ("seagreen", 0x2e8b57), ("seashell", 0xfff5ee), ("sienna", 0xa0522d),
   ("silver", 0xc0c0c0), ("skyblue", 0x87ceeb), ("slateblue", 0x6a5acd),
   ("slategray", 0x708090), ("slategrey", 0x708090), ("snow", 0xfffafa),
   ("springgreen", 0x00ff7f), ("steelblue", 0x4682b4), ("tan", 0xd2b48c),
   ("teal", 0x008080), ("thistle", 0xd8bfd8), ("tomato", 0xff6347),
   ("turquoise", 0x40e0d0), ("violet", 0xee82ee), ("wheat", 0xf5deb3),
   ("white", 0xffffff), ("whitesmoke", 0xf5f5f5), ("yellow", 0xffff00),
   ("yellowgreen", 0x9acd32)]

/-- Source parseNamedColor: parse named color to RGBA via the table. -/
def parseNamedColor (name : String) : Option RGBA :=
  match (knownColors.find? (fun p => p.1 = strToLower name)).map Prod.snd with
  | none => none
  | some n =>
    some ⟨((n >>> 16) &&& 255 : ℕ), ((n >>> 8) &&& 255 : ℕ), ((n >>> 0) &&& 255 : ℕ), 1⟩

/-- Source parseColor: parse any color format to an RGBA. The result-string
cache is keyed by the normalized string and write-through, hence
observationally transparent; it is not modelled. The source never throws:
every failure path returns null. -/
def parseColor (color : String) : Option RGBAn :=
  let normalized := strToLower (jsTrim color)
  if normalized = "inherit" ∨ normalized = "transparent" ∨ normalized = "initial" ∨
     normalized = "currentcolor" ∨ normalized = "none" ∨ normalized = "unset" ∨
     normalized = "auto" then
    none
  else if normalized = "transparent" then
    -- dead branch in the source (transparent is caught above); kept for fidelity
    some (RGBA.toN ⟨0, 0, 0, 0⟩)
  else if strStartsWith normalized "#" then
    parseHex normalized
  else if strStartsWith normalized "rgb" then
    (parseRGB normalized).map RGBA.toN
  else if strStartsWith normalized "hsl" then
    (parseHSL normalized).map RGBA.toN
  else
    (parseNamedColor normalized).map RGBA.toN

/-- Hex rendering of one channel: Math.round then toString(16), zero-padded
to two digits. -/
def toHexChannel (n : ℚ) : String :=
  let i := jsRound n
  let s : String :=
    if i < 0 then "-" ++ ⟨Nat.toDigits 16 (-i).toNat⟩ else ⟨Nat.toDigits 16 i.toNat⟩
  if s.length = 1 then "0" ++ s else s

/-- Source rgbToHex: convert RGBA to a hex string (8 digits when alpha is
below 1). -/
def rgbToHex (rgb : RGBA) : String :=
  if rgb.a < 1 then
    "#" ++ toHexChannel rgb.r ++ toHexChannel rgb.g ++ toHexChannel rgb.b ++
      toHexChannel (rgb.a * 255)
  else
    "#" ++ toHexChannel rgb.r ++ toHexChannel rgb.g ++ toHexChannel rgb.b

/-! ## JavaScript Map model: association lists with insert-or-replace -/

/-- Lookup in a JavaScript Map. -/
def mapGet {κ ν : Type} [DecidableEq κ] (l : List (κ × ν)) (k : κ) : Option ν :=
  (l.find? (fun p => p.1 = k)).map Prod.snd

/-- Map.set: replace the entry in place when the key is present, append
otherwise. -/
def mapSet {κ ν : Type} [DecidableEq κ] (l : List (κ × ν)) (k : κ) (v : ν) :
    List (κ × ν) :=
  match l with
  | [] => [(k, v)]
  | (k0, v0) :: tl => if k0 = k then (k, v) :: tl else (k0, v0) :: mapSet tl k v

/-- Map.delete. -/
def mapDelete {κ ν : Type} [DecidableEq κ] (l : List (κ × ν)) (k : κ) :
    List (κ × ν) :=
  l.filter (fun p => p.1 ≠ k)

/-- Map.has. -/
def mapHas {κ ν : Type} [DecidableEq κ] (l : List (κ × ν)) (k : κ) : Bool :=
  (mapGet l k).isSome

/-! ## Palette registration module: src/services/palette.ts -/

/-- Role of a color in the transform engine (source type ColorType). -/
inductive ColorType where
  | background
  | text
  | border
  deriving DecidableEq, Repr

/-- The palette key of an RGBA: the source serialises "r,g,b,a", which is
injective on number quadruples, so the quadruple itself is the key. -/
def getRGBKey (rgb : RGBA) : ℚ × ℚ × ℚ × ℚ := (rgb.r, rgb.g, rgb.b, rgb.a)

/-- The module-level colorPalettes map. The source keeps one inner map per
color type; a composite key is observationally identical (a missing type map
and an empty one both answer null, and registration creates on demand). -/
def PaletteState : Type := List ((ColorType × ℚ × ℚ × ℚ × ℚ) × String)

instance : DecidableEq (ColorType × ℚ × ℚ × ℚ × ℚ) := inferInstance

/-- Source getRegisteredColor: look up a previously registered
transformation for this color type and RGBA. -/
def getRegisteredColor (st : PaletteState) (type : ColorType) (rgb : RGBA) :
    Option String :=
  mapGet st (type, getRGBKey rgb)

/-- Source registerColor: store a transformed value for this color type and
RGBA. -/
def registerColor (st : PaletteState) (type : ColorType) (rgb : RGBA)
    (value : String) : PaletteState :=
  mapSet st (type, getRGBKey rgb) value

/-- Source clearColorPalette: clear every per-type palette. -/
def clearColorPalette (_st : PaletteState) : PaletteState := []

/-! ## Color registry: src/unnamed/part_006 (ColorRegistry) -/

/-- Source RegisteredColor: a registered color entry with metadata. -/
structure RegisteredColor where
  originalHex : String
  originalRGB : RGBA
  transformedHex : String
  colorType : ColorType
  themeId : String
  timestamp : ℤ
  usageCount : ℕ
  deriving DecidableEq, Repr

/-- Registry key from an RGBA, source getKey (the serialised "r,g,b,a"). -/
def Registry.getKey (rgb : RGBA) : ℚ × ℚ × ℚ × ℚ := (rgb.r, rgb.g, rgb.b, rgb.a)

/-- Source ColorRegistry state: the main map, the per-theme key index, the
capacity, and the statistics counters. -/
structure Registry where
  registry : List ((ℚ × ℚ × ℚ × ℚ) × RegisteredColor)
  themeRegistry : List (String × List (ℚ × ℚ × ℚ × ℚ))
  maxSize : ℕ
  hits : ℕ
  misses : ℕ
  registrations : ℕ
  evictions : ℕ
  deriving DecidableEq, Repr

/-- A fresh registry with the default capacity of 1000. -/
def Registry.empty (maxSize : ℕ := 1000) : Registry :=
  ⟨[], [], maxSize, 0, 0, 0, 0⟩

/-- Source evictLRU: scan for the entry with the strictly oldest timestamp
(older than now) and remove it from the registry and from its theme index. -/
def Registry.evictLRU (reg : Registry) (now : ℤ) : Registry :=
  let scan := reg.registry.foldl
    (fun (acc : Option (ℚ × ℚ × ℚ × ℚ) × ℤ) p =>
      if p.2.timestamp < acc.2 then (some p.1, p.2.timestamp) else acc)
    (none, now)
  match scan.1 with
  | none => reg
  | some oldestKey =>
    match mapGet reg.registry oldestKey with
    | none => reg
    | some entry =>
      { reg with
        registry := mapDelete reg.registry oldestKey
        themeRegistry :=
          match mapGet reg.themeRegistry entry.themeId with
          | none => reg.themeRegistry
          | some keys =>
            mapSet reg.themeRegistry entry.themeId (keys.filter (· ≠ oldestKey))
        evictions := reg.evictions + 1 }

/-- Source register: store a transformation, evicting the LRU entry first
when at capacity and the key is new, and index the key under its theme. -/
def Registry.register (reg : Registry) (originalRGB : RGBA) (originalHex : String)
    (transformedHex : String) (colorType : ColorType) (themeId : String)
    (now : ℤ) : Registry :=
  let key := Registry.getKey originalRGB
  let reg :=
    if reg.registry.length ≥ reg.maxSize ∧ ¬ mapHas reg.registry key then
      reg.evictLRU now
    else reg
  let usage := match mapGet reg.registry key with
    | some old => old.usageCount + 1
    | none => 1
  let entry : RegisteredColor :=
    ⟨originalHex, originalRGB, transformedHex, colorType, themeId, now, usage⟩
  let themeKeys := (mapGet reg.themeRegistry themeId).getD []
  { reg with
    registry := mapSet reg.registry key entry
    themeRegistry :=
      mapSet reg.themeRegistry themeId
        (if key ∈ themeKeys then themeKeys else themeKeys ++ [key])
    registrations := reg.registrations + 1 }

/-- Source getTransformed: look up a registered transformation; a hit
requires the stored entry to match the queried color type and theme id, and
refreshes the timestamp and usage count. -/
def Registry.getTransformed (reg : Registry) (originalRGB : RGBA)
    (colorType : ColorType) (themeId : String) (now : ℤ) :
    Option String × Registry :=
  let key := Registry.getKey originalRGB
  match mapGet reg.registry key with
  | none => (none, { reg with misses := reg.misses + 1 })
  | some registered =>
    if registered.colorType ≠ colorType ∨ registered.themeId ≠ themeId then
      (none, { reg with misses := reg.misses + 1 })
    else
      (some registered.transformedHex,
       { reg with
         registry := mapSet reg.registry key
           { registered with timestamp := now, usageCount := registered.usageCount + 1 }
         hits := reg.hits + 1 })

/-- Source clearTheme: delete every key indexed under the theme, then drop
the theme index. -/
def Registry.clearTheme (reg : Registry) (themeId : String) : Registry :=
  match mapGet reg.themeRegistry themeId with
  | none => reg
  | some keys =>
    { reg with
      registry := keys.foldl (fun acc k => mapDelete acc k) reg.registry
      themeRegistry := mapDelete reg.themeRegistry themeId }

/-- Source clear: wipe everything and reset the statistics. -/
def Registry.clear (reg : Registry) : Registry :=
  { reg with registry := [], themeRegistry := [], hits := 0, misses := 0,
             registrations := 0, evictions := 0 }

/-! ## Loop guard: src/unnamed/part_005 (shouldSkipLoopElement) -/

/-- Source constant LOOP_DETECTION_THRESHOLD (0.5 second). -/
def LOOP_DETECTION_THRESHOLD : ℤ := 500

/-- Source constant MAX_LOOP_CYCLES (max cycles before bailout). -/
def MAX_LOOP_CYCLES : ℤ := 4

/-- Per-node slice of the elementsLastChanges / elementsLoopCycles weak maps.
A missing cycles entry reads as 0 in the source, so cycles is total. -/
structure LoopState where
  last : Option ℤ
  cycles : ℤ
  deriving DecidableEq, Repr

/-- Fresh node: neither map has an entry. -/
def LoopState.initial : LoopState := ⟨none, 0⟩

/-- Source shouldSkipLoopElement for one node at time now: true means the
mutation is skipped. The warning rate limiter has no observable effect on
processing and is not modelled. -/
def shouldSkipLoopElement (st : LoopState) (now : ℤ) : Bool × LoopState :=
  match st.last with
  | none => (false, ⟨some now, st.cycles⟩)
  | some lastChange =>
    if now - lastChange < LOOP_DETECTION_THRESHOLD then
      let cycles := st.cycles
      if cycles ≥ MAX_LOOP_CYCLES then
        (true, ⟨st.last, cycles + 1⟩)
      else
        (false, ⟨some now, cycles + 1⟩)
    else
      (false, ⟨some now, 0⟩)

/-- Run the loop guard over a sequence of mutation times, collecting the
skip decision of each call. -/
def runLoopGuard : LoopState → List ℤ → List Bool × LoopState
  | st, [] => ([], st)
  | st, t :: ts =>
    let r := shouldSkipLoopElement st t
    let rest := runLoopGuard r.2 ts
    (r.1 :: rest.1, rest.2)

/-! ## Theme data model: src/types/theme.ts -/

/-- Source ThemeFilters: optional perceptual filter multipliers. -/
structure ThemeFilters where
  brightness : Option ℚ := none
  contrast : Option ℚ := none
  hueRotate : Option ℚ := none
  saturate : Option ℚ := none
  sepia : Option ℚ := none
  grayscale : Option ℚ := none
  invert : Option ℚ := none
  deriving DecidableEq, Repr

/-- Source ThemePalette. -/
structure ThemePalette where
  background : String
  text : String
  surface : String
  accent : String
  deriving DecidableEq, Repr

/-- Source ThemeProfile. The id is a string drawn from the ThemeId union. -/
structure ThemeProfile where
  id : String
  label : String := ""
  description : String := ""
  palette : ThemePalette
  filters : Option ThemeFilters := none
  reducedMotion : Option Bool := none
  minimumContrast : Option ℚ := none
  deriving DecidableEq, Repr

/-- Source ThemeMode: every ThemeId except reduced-motion. -/
inductive ThemeMode where
  | light
  | dark
  | highContrast
  | nightWarm
  | colorblindProtanopia
  | colorblindDeuteranopia
  | colorblindTritanopia
  deriving DecidableEq, Repr

/-! ## Color matrix engine: src/unnamed/part_005 (colorMatrix) -/

/-- Source ColorMatrix: nine values in row-major order. The type and
description fields are debugging metadata with no observable effect and are
not modelled. -/
structure ColorMatrix where
  m0 : ℝ
  m1 : ℝ
  m2 : ℝ
  m3 : ℝ
  m4 : ℝ
  m5 : ℝ
  m6 : ℝ
  m7 : ℝ
  m8 : ℝ

/-- Source IDENTITY_MATRIX. -/
def IDENTITY_MATRIX : ColorMatrix := ⟨1, 0, 0, 0, 1, 0, 0, 0, 1⟩

/-- Source composeMatrices: 3x3 matrix multiplication A x B. -/
def composeMatrices (a b : ColorMatrix) : ColorMatrix :=
  ⟨a.m0 * b.m0 + a.m1 * b.m3 + a.m2 * b.m6,
   a.m0 * b.m1 + a.m1 * b.m4 + a.m2 * b.m7,
   a.m0 * b.m2 + a.m1 * b.m5 + a.m2 * b.m8,
   a.m3 * b.m0 + a.m4 * b.m3 + a.m5 * b.m6,
   a.m3 * b.m1 + a.m4 * b.m4 + a.m5 * b.m7,
   a.m3 * b.m2 + a.m4 * b.m5 + a.m5 * b.m8,
   a.m6 * b.m0 + a.m7 * b.m3 + a.m8 * b.m6,
   a.m6 * b.m1 + a.m7 * b.m4 + a.m8 * b.m7,
   a.m6 * b.m2 + a.m7 * b.m5 + a.m8 * b.m8⟩

/-- Source createGammaMatrix: diagonal scaling by 2 ^ (1/gamma - 1). -/
noncomputable def createGammaMatrix (gamma : ℚ) : ColorMatrix :=
  let v : ℝ := (2 : ℝ) ^ ((1 : ℝ) / (gamma : ℝ) - 1)
  ⟨v, 0, 0, 0, v, 0, 0, 0, v⟩

/-- Source createContrastMatrix: diagonal scaling by the contrast
multiplier, identity short-circuit at 1. -/
def createContrastMatrix (contrast : ℚ) : ColorMatrix :=
  if contrast = 1 then IDENTITY_MATRIX
  else ⟨(contrast : ℝ), 0, 0, 0, (contrast : ℝ), 0, 0, 0, (contrast : ℝ)⟩

/-- Source createBrightnessMatrix: diagonal scaling by the brightness
multiplier, identity short-circuit at 1. -/
def createBrightnessMatrix (brightness : ℚ) : ColorMatrix :=
  if brightness = 1 then IDENTITY_MATRIX
  else ⟨(brightness : ℝ), 0, 0, 0, (brightness : ℝ), 0, 0, 0, (brightness : ℝ)⟩

/-- Source applyColorMatrix: normalise channels to 0-1, multiply, clamp to
0-1, round back to 0-255; alpha passes through. -/
noncomputable def applyColorMatrix (rgb : RGBA) (m : ColorMatrix) : RGBA :=
  let r : ℝ := (rgb.r : ℝ) / 255
  let g : ℝ := (rgb.g : ℝ) / 255
  let b : ℝ := (rgb.b : ℝ) / 255
  let rNew := m.m0 * r + m.m1 * g + m.m2 * b
  let gNew := m.m3 * r + m.m4 * g + m.m5 * b
  let bNew := m.m6 * r + m.m7 * g + m.m8 * b
  let clamp01 : ℝ → ℝ := fun v => max 0 (min 1 v)
  ⟨(jsRoundR (clamp01 rNew * 255) : ℤ), (jsRoundR (clamp01 gNew * 255) : ℤ),
   (jsRoundR (clamp01 bNew * 255) : ℤ), rgb.a⟩

/-- Source createFilterMatrix: compose brightness, contrast and the
mode-selected gamma correction (2.0 for dark mode, 2.2 for light). A filter
value of 0 is falsy in the source and skips the factor, like an absent one. -/
noncomputable def createFilterMatrix (theme : ThemeProfile) (isDarkMode : Bool) :
    ColorMatrix :=
  let filters := theme.filters.getD {}
  let matrix := IDENTITY_MATRIX
  let matrix :=
    match filters.brightness with
    | some b => if b ≠ 0 ∧ b ≠ 1 then composeMatrices matrix (createBrightnessMatrix b) else matrix
    | none => matrix
  let matrix :=
    match filters.contrast with
    | some c => if c ≠ 0 ∧ c ≠ 1 then composeMatrices matrix (createContrastMatrix c) else matrix
    | none => matrix
  if isDarkMode then composeMatrices matrix (createGammaMatrix 2)
  else composeMatrices matrix (createGammaMatrix 2.2)

/-- The matrixCache map, keyed by theme id and mode flag. -/
def MatrixCache : Type := List ((String × Bool) × ColorMatrix)

/-- Source getCachedFilterMatrix: memoised createFilterMatrix. -/
noncomputable def getCachedFilterMatrix (cache : MatrixCache) (theme : ThemeProfile)
    (isDarkMode : Bool) : ColorMatrix × MatrixCache :=
  match mapGet cache (theme.id, isDarkMode) with
  | some m => (m, cache)
  | none =>
    let m := createFilterMatrix theme isDarkMode
    (m, mapSet cache (theme.id, isDarkMode) m)

/-- Source clearMatrixCache. -/
def clearMatrixCache (_c : MatrixCache) : MatrixCache := []

/-! ## Color transform engine: src/services/colorTransform.ts -/

/-- Source constant MAX_BG_LIGHTNESS. -/
def MAX_BG_LIGHTNESS : ℚ := 0.4

/-- Source constant MIN_FG_LIGHTNESS. -/
def MIN_FG_LIGHTNESS : ℚ := 0.55

/-- Source ColorPoles: HSL of the theme palette anchors. -/
structure ColorPoles where
  background : HSLA
  text : HSLA
  surface : HSLA
  deriving DecidableEq, Repr

/-- Source detectThemeMode: map the theme id to a mode, defaulting to dark
for unrecognised ids. -/
def detectThemeMode (theme : ThemeProfile) : ThemeMode :=
  if theme.id = "light" then .light
  else if theme.id = "dark" then .dark
  else if theme.id = "high-contrast" then .highContrast
  else if theme.id = "night-warm" then .nightWarm
  else if theme.id = "colorblind-protanopia" then .colorblindProtanopia
  else if theme.id = "colorblind-deuteranopia" then .colorblindDeuteranopia
  else if theme.id = "colorblind-tritanopia" then .colorblindTritanopia
  else .dark

/-- Source getColorPoles: parse the palette entries, with fixed neutral
fallbacks on parse failure. A hex string whose parse produced NaN channels
is folded into the fallback here (the source would propagate NaN). -/
def getColorPoles (theme : ThemeProfile) : ColorPoles :=
  let bgRgb := (parseColor theme.palette.background).bind RGBAn.toRGBA
  let textRgb := (parseColor theme.palette.text).bind RGBAn.toRGBA
  let surfaceRgb := (parseColor theme.palette.surface).bind RGBAn.toRGBA
  { background := match bgRgb with | some rgb => rgbToHSL rgb | none => ⟨0, 0, 0.1, 1⟩
    text := match textRgb with | some rgb => rgbToHSL rgb | none => ⟨0, 0, 0.9, 1⟩
    surface := match surfaceRgb with | some rgb => rgbToHSL rgb | none => ⟨0, 0, 0.2, 1⟩ }

/-- Source isNeutralColor: grayscale-likeness test with mode-dependent
thresholds. -/
def isNeutralColor (h s l : ℚ) (isDarkColor : Bool) : Bool :=
  if isDarkColor then l < 0.2 ∨ s < 0.12
  else
    let isBlue := h > 200 ∧ h < 280
    s < 0.24 ∨ (l > 0.8 ∧ isBlue)

/-- Source isYellowHue. -/
def isYellowHue (h : ℚ) : Bool := h > 60 ∧ h < 180

/-- Source adjustYellowHue: compress the yellow band and cut lightness by a
quarter in the muddy 40-80 degree range. -/
def adjustYellowHue (h l : ℚ) : ℚ × ℚ :=
  let h2 := if h > 120 then scale h 120 180 135 180
            else if h > 60 then scale h 60 120 60 105
            else h
  let lNew := if h2 > 40 ∧ h2 < 80 then l * 0.75 else l
  (h2, lNew)

/-- Source isBlueHue: wider range for backgrounds, tighter for foregrounds. -/
def isBlueHue (h : ℚ) (isBackground : Bool) : Bool :=
  if isBackground then h > 200 ∧ h < 280 else h > 205 ∧ h < 245

/-- Source adjustBlueHue: compress pure blues toward cyan. -/
def adjustBlueHue (h : ℚ) : ℚ :=
  if h > 205 ∧ h < 245 then scale h 205 245 205 220 else h

/-- Source applyThemeFilters: hue rotation, saturation multiplier, grayscale
blend and sepia blend, after the HSL remap and before RGB conversion. A
filter value of 0 is falsy where the source tests it with and. -/
def applyThemeFilters (hsl : HSLA) (filters : Option ThemeFilters) : HSLA :=
  match filters with
  | none => hsl
  | some f =>
    let h := hsl.h
    let s := hsl.s
    let h := match f.hueRotate with
      | some rot => if rot ≠ 0 then (let h2 := jsRem (h + rot) 360; if h2 < 0 then h2 + 360 else h2) else h
      | none => h
    let s := match f.saturate with
      | some sat => if sat ≠ 1 then clamp (s * sat) 0 1 else s
      | none => s
    let s := match f.grayscale with
      | some gr => if gr ≠ 0 ∧ gr > 0 then s * (1 - gr) else s
      | none => s
    let hs : ℚ × ℚ := match f.sepia with
      | some sep => if sep ≠ 0 ∧ sep > 0 then (h + (38 - h) * sep, s + (0.5 - s) * sep) else (h, s)
      | none => (h, s)
    ⟨hs.1, hs.2, hsl.l, hsl.a⟩

/-- Source transformBackgroundDarkMode. -/
def transformBackgroundDarkMode (hsl : HSLA) (poles : ColorPoles)
    (theme : ThemeProfile) : HSLA :=
  let maxBgLightness :=
    match theme.filters.bind (·.brightness) with
    | some b => if b ≠ 0 then min MAX_BG_LIGHTNESS (b * 0.4) else MAX_BG_LIGHTNESS
    | none => MAX_BG_LIGHTNESS
  let isDark := hsl.l < 0.5
  let isNeutral := isNeutralColor hsl.h hsl.s hsl.l isDark
  if isDark then
    let l := scale hsl.l 0 0.5 0 maxBgLightness
    if isNeutral then ⟨poles.background.h, poles.background.s, l, hsl.a⟩
    else if isBlueHue hsl.h true then ⟨adjustBlueHue hsl.h, hsl.s, l, hsl.a⟩
    else ⟨hsl.h, hsl.s, l, hsl.a⟩
  else
    let l := scale hsl.l 0.5 1 maxBgLightness poles.background.l
    if isNeutral then ⟨poles.background.h, poles.background.s, l, hsl.a⟩
    else if isYellowHue hsl.h then
      let hl := adjustYellowHue hsl.h l
      ⟨hl.1, hsl.s, hl.2, hsl.a⟩
    else if isBlueHue hsl.h true then ⟨adjustBlueHue hsl.h, hsl.s, l, hsl.a⟩
    else ⟨hsl.h, hsl.s, l, hsl.a⟩

/-- Source transformBackgroundLightMode. -/
def transformBackgroundLightMode (hsl : HSLA) (poles : ColorPoles)
    (_theme : ThemeProfile) : HSLA :=
  let isDark := hsl.l < 0.5
  let isNeutral := isNeutralColor hsl.h hsl.s hsl.l isDark
  if isDark then
    let l := scale hsl.l 0 0.5 poles.text.l 0.3
    if isNeutral then ⟨poles.text.h, poles.text.s, l, hsl.a⟩
    else ⟨hsl.h, hsl.s, l, hsl.a⟩
  else
    let l := scale hsl.l 0.5 1 0.5 poles.background.l
    if isNeutral then ⟨poles.background.h, poles.background.s, l, hsl.a⟩
    else ⟨hsl.h, hsl.s, l, hsl.a⟩

/-- Source transformForegroundDarkMode. -/
def transformForegroundDarkMode (hsl : HSLA) (poles : ColorPoles)
    (theme : ThemeProfile) : HSLA :=
  let minFgLightness :=
    match theme.minimumContrast with
    | some mc => if mc ≠ 0 then max MIN_FG_LIGHTNESS (mc / 10) else MIN_FG_LIGHTNESS
    | none => MIN_FG_LIGHTNESS
  let isLight := hsl.l > 0.5
  let isNeutral := isNeutralColor hsl.h hsl.s hsl.l (!isLight)
  if isLight then
    let l := scale hsl.l 0.5 1 minFgLightness poles.text.l
    if isNeutral then ⟨poles.text.h, poles.text.s, l, hsl.a⟩
    else if isBlueHue hsl.h false then ⟨adjustBlueHue hsl.h, hsl.s, l, hsl.a⟩
    else ⟨hsl.h, hsl.s, l, hsl.a⟩
  else
    let l := scale hsl.l 0 0.5 poles.text.l minFgLightness
    if isNeutral then ⟨poles.text.h, poles.text.s, l, hsl.a⟩
    else if isBlueHue hsl.h false then
      ⟨adjustBlueHue hsl.h, hsl.s, min 1 (l + 0.05), hsl.a⟩
    else ⟨hsl.h, hsl.s, l, hsl.a⟩

/-- Source transformForegroundLightMode. -/
def transformForegroundLightMode (hsl : HSLA) (poles : ColorPoles)
    (_theme : ThemeProfile) : HSLA :=
  let isLight := hsl.l > 0.5
  let isNeutral := isNeutralColor hsl.h hsl.s hsl.l (!isLight)
  if isLight then
    let l := scale hsl.l 0.5 1 0.4 poles.text.l
    if isNeutral then ⟨poles.text.h, poles.text.s, l, hsl.a⟩
    else ⟨hsl.h, hsl.s, l, hsl.a⟩
  else
    let l := scale hsl.l 0 0.5 0.2 poles.text.l
    if isNeutral then ⟨poles.text.h, poles.text.s, l, hsl.a⟩
    else ⟨hsl.h, hsl.s, l, hsl.a⟩

/-- Source transformBorderColor. -/
def transformBorderColor (hsl : HSLA) (poles : ColorPoles) (isDarkMode : Bool) :
    HSLA :=
  let isDark := hsl.l < 0.5
  let isNeutral := isNeutralColor hsl.h hsl.s hsl.l isDark
  let hs : ℚ × ℚ :=
    if isNeutral then
      if isDarkMode then (poles.text.h, poles.text.s)
      else (poles.background.h, poles.background.s)
    else (hsl.h, hsl.s)
  let l := scale hsl.l 0 1 (if isDarkMode then 0.2 else 0.4) (if isDarkMode then 0.5 else 0.7)
  ⟨hs.1, hs.2, l, hsl.a⟩

/-- Identity of the modifier passed to modifyColorWithCache. The four named
functions are stable values and so stable cache keys; the border modifier is
a closure created afresh on every transformColor call, so its cache lookups
can never hit. -/
inductive HSLModifier where
  | backgroundDark
  | backgroundLight
  | foregroundDark
  | foregroundLight
  | border (isDarkMode : Bool)
  deriving DecidableEq, Repr

/-- Apply the modifier function denoted by the key. -/
def HSLModifier.apply : HSLModifier → HSLA → ColorPoles → ThemeProfile → HSLA
  | .backgroundDark, hsl, poles, theme => transformBackgroundDarkMode hsl poles theme
  | .backgroundLight, hsl, poles, theme => transformBackgroundLightMode hsl poles theme
  | .foregroundDark, hsl, poles, theme => transformForegroundDarkMode hsl poles theme
  | .foregroundLight, hsl, poles, theme => transformForegroundLightMode hsl poles theme
  | .border isDarkMode, hsl, poles, _ => transformBorderColor hsl poles isDarkMode

/-- Cache tag of a modifier: the four named functions each own one inner
cache; border closures are fresh function values, hence uncacheable. -/
def HSLModifier.tag : HSLModifier → Option (Fin 4)
  | .backgroundDark => some 0
  | .backgroundLight => some 1
  | .foregroundDark => some 2
  | .foregroundLight => some 3
  | .border _ => none

/-- Source getCacheId: the serialised cache key (rgb, alpha, theme id,
brightness and contrast filters), modelled as the tuple it injectively
serialises. -/
def getCacheId (rgb : RGBA) (theme : ThemeProfile) :
    (ℚ × ℚ × ℚ × ℚ) × String × Option ℚ × Option ℚ :=
  ((rgb.r, rgb.g, rgb.b, rgb.a), theme.id,
   theme.filters.bind (·.brightness), theme.filters.bind (·.contrast))

/-- Composite key of one per-modifier modification cache: the modifier tag
together with the getCacheId tuple. -/
structure ModCacheKey where
  tag : Fin 4
  cacheId : (ℚ × ℚ × ℚ × ℚ) × String × Option ℚ × Option ℚ
  deriving DecidableEq, Repr

/-- Mutable module state of colorTransform.ts plus its two imported stateful
modules: the per-modifier-function modification caches, the palette
registration maps, and the matrix cache. The parse caches and the unused
transformCache are write-through on a pure function and are not modelled. -/
structure TransformState where
  palette : PaletteState
  modCache : List (ModCacheKey × String)
  matrixCache : MatrixCache

/-- The state with every cache empty. -/
def TransformState.empty : TransformState := ⟨[], [], []⟩

/-- The pure miss-path computation of modifyColorWithCache: poles, HSL
conversion, modifier, theme filters, RGB conversion, perceptual matrix
(always requested with isDarkMode = false, as the source NOTE says the
inversion already happened in HSL space), then hex. -/
noncomputable def modifyColorPure (rgb : RGBA) (theme : ThemeProfile)
    (modifier : HSLModifier) (matrix : ColorMatrix) : String :=
  let poles := getColorPoles theme
  let hsl := rgbToHSL rgb
  let modifiedHSL := applyThemeFilters (modifier.apply hsl poles theme) theme.filters
  let modifiedRGB := hslToRGB modifiedHSL
  let filteredRGB := applyColorMatrix modifiedRGB matrix
  rgbToHex filteredRGB

/-- Source modifyColorWithCache: per-modifier-function cache around the pure
computation. Border modifiers are fresh closures in the source, so their
lookup always misses and their stored entry is unreachable; they are
modelled as bypassing the cache. -/
noncomputable def modifyColorWithCache (st : TransformState) (rgb : RGBA)
    (theme : ThemeProfile) (modifier : HSLModifier) : String × TransformState :=
  match modifier.tag with
  | some tag =>
    let cacheId : ModCacheKey := ⟨tag, getCacheId rgb theme⟩
    match mapGet st.modCache cacheId with
    | some v => (v, st)
    | none =>
      let mc := getCachedFilterMatrix st.matrixCache theme false
      let result := modifyColorPure rgb theme modifier mc.1
      (result, { st with modCache := mapSet st.modCache cacheId result,
                         matrixCache := mc.2 })
  | none =>
    let mc := getCachedFilterMatrix st.matrixCache theme false
    let result := modifyColorPure rgb theme modifier mc.1
    (result, { st with matrixCache := mc.2 })

/-- Modelled from the specification sentence for the perceptual-correction
step: the same computation as modifyColorWithCache on a cache miss, but
requesting the filter matrix for the theme's current mode (dark modes get
the gamma 2.0 matrix, light modes the 2.2 one). Used to compare the
specified matrix selection with the implemented one. -/
noncomputable def modifyColorPerMode (rgb : RGBA) (theme : ThemeProfile)
    (modifier : HSLModifier) : String :=
  let mode := detectThemeMode theme
  modifyColorPure rgb theme modifier
    (createFilterMatrix theme (mode = ThemeMode.dark ∨ mode = ThemeMode.nightWarm))

/-- Source transformColor: palette lookup first (unless registration is
disabled), then mode detection, modifier selection, cached modification, and
palette registration of the result. -/
noncomputable def transformColor (st : TransformState) (rgb : RGBA)
    (colorType : ColorType) (theme : ThemeProfile)
    (optMode : Option ThemeMode := none) (optShouldRegister : Option Bool := none) :
    String × TransformState :=
  let shouldRegister := optShouldRegister.getD true
  let registered :=
    if shouldRegister then getRegisteredColor st.palette colorType rgb else none
  match registered with
  | some r => (r, st)
  | none =>
    let mode := optMode.getD (detectThemeMode theme)
    let isDarkMode := mode = ThemeMode.dark ∨ mode = ThemeMode.nightWarm
    let modifier : HSLModifier :=
      match colorType with
      | .background => if isDarkMode then .backgroundDark else .backgroundLight
      | .text => if isDarkMode then .foregroundDark else .foregroundLight
      | .border => .border isDarkMode
    let rs := modifyColorWithCache st rgb theme modifier
    if shouldRegister then
      (rs.1, { rs.2 with palette := registerColor rs.2.palette colorType rgb rs.1 })
    else rs

/-- Source clearColorCache in colorTransform.ts: flush the transform and
parse caches, the per-modifier caches, the matrix cache and the palette
registry. -/
def clearColorCache (_st : TransformState) : TransformState := ⟨[], [], []⟩

/-! ## Dynamic theme engine, registry-visible effects: src/unnamed/part_005 -/

/-- Engine-instance fields of DynamicThemeEngine that the cache and registry
behaviour can observe. Observers, injected style elements and tracking sets
are DOM-side state outside this model. -/
structure EngineState where
  theme : Option ThemeProfile
  isDestroyed : Bool
  observersStarted : Bool
  inlineObservationEnabled : Bool
  deriving Repr

/-- A freshly constructed engine. -/
def EngineState.initial : EngineState := ⟨none, false, false, false⟩

/-- Source DynamicThemeEngine.updateTheme, restricted to its cache and
registry effects, in source order: destroyed guard; assign the new theme;
flush all color caches; attach observers once and align inline observation;
clear the color registry for the id of the theme field, which at that point
already holds the new theme; the subsequent DOM reprocessing (override
removal, base style injection, stylesheet and inline processing) is outside
this model and only adds fresh entries for the new theme. -/
def updateTheme (eng : EngineState) (reg : Registry) (st : TransformState)
    (theme : ThemeProfile) (enableInlineObservation : Option Bool) :
    EngineState × Registry × TransformState :=
  if eng.isDestroyed then (eng, reg, st)
  else
    let eng := { eng with theme := some theme }
    let st := clearColorCache st
    let eng := { eng with inlineObservationEnabled := enableInlineObservation = some true }
    let eng := { eng with observersStarted := true }
    let reg := reg.clearTheme theme.id
    (eng, reg, st)

/-! ## CSS processor contrast repair: src/unnamed/part_007 -/

/-- RGB triple as used by the contrast-repair helpers. -/
structure RGBt where
  r : ℚ
  g : ℚ
  b : ℚ
  deriving DecidableEq, Repr

/-- WCAG channel linearisation: linear segment below the 0.03928 knee, else
the 2.4-power segment. -/
noncomputable def luminanceChannel (val : ℚ) : ℝ :=
  let v := val / 255
  if v ≤ 0.03928 then ((v / 12.92 : ℚ) : ℝ)
  else (((v + 0.055) / 1.055 : ℚ) : ℝ) ^ (2.4 : ℝ)

/-- Source getRelativeLuminance: WCAG relative luminance. -/
noncomputable def getRelativeLuminance (rgb : RGBt) : ℝ :=
  0.2126 * luminanceChannel rgb.r + 0.7152 * luminanceChannel rgb.g +
    0.0722 * luminanceChannel rgb.b

/-- Source getContrastRatio: WCAG contrast ratio of two colors. -/
noncomputable def getContrastRatio (rgb1 rgb2 : RGBt) : ℝ :=
  let lum1 := getRelativeLuminance rgb1
  let lum2 := getRelativeLuminance rgb2
  (max lum1 lum2 + 0.05) / (min lum1 lum2 + 0.05)

/-- One step of the repair loop: plus 15 per channel clamped at 255 when
lightening, minus 15 clamped at 0 when darkening. -/
def adjustStep (shouldLighten : Bool) (c : RGBt) : RGBt :=
  if shouldLighten then ⟨min 255 (c.r + 15), min 255 (c.g + 15), min 255 (c.b + 15)⟩
  else ⟨max 0 (c.r - 15), max 0 (c.g - 15), max 0 (c.b - 15)⟩

open Classical in
/-- The bounded repair loop of adjustForContrast: step, recompute the ratio,
stop early when the target is met, at most the given number of iterations. -/
noncomputable def adjustLoop (bg : RGBt) (target : ℝ) (shouldLighten : Bool) :
    ℕ → RGBt → RGBt
  | 0, adjusted => adjusted
  | n + 1, adjusted =>
    let adjusted2 := adjustStep shouldLighten adjusted
    if target ≤ getContrastRatio adjusted2 bg then adjusted2
    else adjustLoop bg target shouldLighten n adjusted2

open Classical in
/-- Source adjustForContrast: return the text color unchanged when the
target is already met, otherwise run up to 20 repair iterations, lightening
exactly when the background luminance is below a half. -/
noncomputable def adjustForContrast (textRgb bgRgb : RGBt) (targetRatio : ℝ) : RGBt :=
  if targetRatio ≤ getContrastRatio textRgb bgRgb then textRgb
  else
    let shouldLighten := getRelativeLuminance bgRgb < 0.5
    adjustLoop bgRgb targetRatio shouldLighten 20 textRgb

/-! ## Sample data used by concrete theorems -/

/-- A dark theme with an all-black background palette and white text, in the
shape of the catalog profiles. -/
def themeDark : ThemeProfile :=
  { id := "dark"
    palette := ⟨"#000000", "#ffffff", "#000000", "#ffffff"⟩ }

/-- A light theme with a white background palette and black text. -/
def themeLight : ThemeProfile :=
  { id := "light"
    palette := ⟨"#ffffff", "#000000", "#ffffff", "#000000"⟩ }

/-- Registry with RGBA (10,10,10,1) registered as background for theme dark
(the registry-scoping example of the specification). -/
def sampleRegistry : Registry :=
  (Registry.empty).register ⟨10, 10, 10, 1⟩ "#0a0a0a" "#111111" .background "dark" 0

/-- Registry holding one entry under theme id dark and one under light, used
to observe which side updateTheme clears. -/
def regBeforeUpdate : Registry :=
  ((Registry.empty).register ⟨1, 2, 3, 1⟩ "#010203" "#aaaaaa" .background "dark" 0).register
    ⟨4, 5, 6, 1⟩ "#040506" "#bbbbbb" .background "light" 1

/-- An engine whose active theme is the dark theme. -/
def engineOnDark : EngineState := ⟨some themeDark, false, true, false⟩

/-- A transform state whose palette holds an unrelated entry (black as text)
and whose caches are empty, used to compare runs from different histories. -/
def paletteOther : TransformState :=
  ⟨[((ColorType.text, ((0 : ℚ), (0 : ℚ), (0 : ℚ), (1 : ℚ))), "#112233")], [], []⟩

/-! ## Association-list lemmas -/

theorem mapGet_mapSet_self {κ ν : Type} [DecidableEq κ] (l : List (κ × ν)) (k : κ) (v : ν) :
    mapGet (mapSet l k v) k = some v := by
  induction l with
  | nil => simp [mapSet, mapGet, List.find?]
  | cons p tl ih =>
    obtain ⟨k0, v0⟩ := p
    by_cases h : k0 = k
    · simp [mapSet, h, mapGet, List.find?]
    · simp only [mapSet, if_neg h]
      simpa [mapGet, List.find?, h] using ih

theorem mem_keys_mapSet {κ ν : Type} [DecidableEq κ] (l : List (κ × ν)) (k a : κ) (v : ν) :
    a ∈ (mapSet l k v).map Prod.fst → a ∈ l.map Prod.fst ∨ a = k := by
  induction l with
  | nil => simp [mapSet]
  | cons p tl ih =>
    obtain ⟨k0, v0⟩ := p
    by_cases h : k0 = k
    · subst h
      simp [mapSet]
      tauto
    · simp only [mapSet, if_neg h, List.map_cons, List.mem_cons]
      rintro (rfl | hmem)
      · simp
      · rcases ih hmem with h1 | h1
        · exact Or.inl (by simp [h1])
        · exact Or.inr h1

theorem keys_nodup_mapSet {κ ν : Type} [DecidableEq κ] (l : List (κ × ν)) (k : κ) (v : ν)
    (h : (l.map Prod.fst).Nodup) : ((mapSet l k v).map Prod.fst).Nodup := by
  induction l with
  | nil => simp [mapSet]
  | cons p tl ih =>
    obtain ⟨k0, v0⟩ := p
    simp only [List.map_cons, List.nodup_cons] at h
    by_cases hk : k0 = k
    · subst hk
      simpa [mapSet, List.nodup_cons] using h
    · simp only [mapSet, if_neg hk, List.map_cons, List.nodup_cons]
      refine ⟨fun hmem => ?_, ih h.2⟩
      rcases mem_keys_mapSet tl k k0 v hmem with h1 | h1
      · exact h.1 h1
      · exact hk h1

theorem keys_nodup_mapDelete {κ ν : Type} [DecidableEq κ] (l : List (κ × ν)) (k : κ)
    (h : (l.map Prod.fst).Nodup) : ((mapDelete l k).map Prod.fst).Nodup :=
  List.Nodup.sublist (List.Sublist.map Prod.fst (List.filter_sublist l)) h

theorem keys_nodup_foldl_mapDelete {κ ν : Type} [DecidableEq κ]
    (ks : List κ) (l : List (κ × ν)) (h : (l.map Prod.fst).Nodup) :
    ((ks.foldl (fun acc k => mapDelete acc k) l).map Prod.fst).Nodup := by
  induction ks generalizing l with
  | nil => exact h
  | cons k ks ih => exact ih _ (keys_nodup_mapDelete l k h)

/-! ## Registry reachability and key uniqueness -/

/-- Registry key uniqueness invariant: the main map holds at most one entry
per RGBA key. -/
def Registry.KeysNodup (reg : Registry) : Prop :=
  (reg.registry.map Prod.fst).Nodup

/-- States of the color registry reachable through its public operations. -/
inductive Registry.Reachable : Registry → Prop where
  | empty (maxSize : ℕ) : Registry.Reachable (Registry.empty maxSize)
  | register (reg : Registry) (rgb : RGBA) (oh th : String) (ct : ColorType)
      (tid : String) (now : ℤ) :
      Registry.Reachable reg → Registry.Reachable (reg.register rgb oh th ct tid now)
  | getTransformed (reg : Registry) (rgb : RGBA) (ct : ColorType) (tid : String)
      (now : ℤ) :
      Registry.Reachable reg → Registry.Reachable (reg.getTransformed rgb ct tid now).2
  | clearTheme (reg : Registry) (tid : String) :
      Registry.Reachable reg → Registry.Reachable (reg.clearTheme tid)
  | clear (reg : Registry) :
      Registry.Reachable reg → Registry.Reachable reg.clear

theorem keysNodup_evictLRU (reg : Registry) (now : ℤ) (h : reg.KeysNodup) :
    (reg.evictLRU now).KeysNodup := by
  unfold Registry.evictLRU Registry.KeysNodup
  dsimp only
  split
  · exact h
  · split
    · exact h
    · exact keys_nodup_mapDelete _ _ h

theorem keysNodup_register (reg : Registry) (rgb : RGBA) (oh th : String)
    (ct : ColorType) (tid : String) (now : ℤ) (h : reg.KeysNodup) :
    (reg.register rgb oh th ct tid now).KeysNodup := by
  unfold Registry.register
  have h2 : (if reg.registry.length ≥ reg.maxSize ∧ ¬ mapHas reg.registry (Registry.getKey rgb)
      then reg.evictLRU now else reg).KeysNodup := by
    split
    · exact keysNodup_evictLRU reg now h
    · exact h
  exact keys_nodup_mapSet _ _ _ h2

theorem keysNodup_getTransformed (reg : Registry) (rgb : RGBA) (ct : ColorType)
    (tid : String) (now : ℤ) (h : reg.KeysNodup) :
    (reg.getTransformed rgb ct tid now).2.KeysNodup := by
  unfold Registry.getTransformed Registry.KeysNodup
  dsimp only
  split
  · exact h
  · split
    · exact h
    · exact keys_nodup_mapSet _ _ _ h

theorem keysNodup_clearTheme (reg : Registry) (tid : String) (h : reg.KeysNodup) :
    (reg.clearTheme tid).KeysNodup := by
  unfold Registry.clearTheme
  rcases hget : mapGet reg.themeRegistry tid with _ | keys
  · exact h
  · exact keys_nodup_foldl_mapDelete keys reg.registry h

/-! ## Claim theorems -/

/-- On the generic inMax ≠ inMin path the NaN-faithful scaleN agrees with
the rational scale used by the HSL modifiers. -/
theorem scaleN_eq_scale (value inMin inMax outMin outMax : ℚ)
    (h : inMax - inMin ≠ 0) :
    scaleN value inMin inMax outMin outMax =
      JSNum.fin (scale value inMin inMax outMin outMax) := by
  unfold scaleN jsDivF
  rw [if_neg h]
  rfl

/-- C9 counterexample: scale(0, 0, 0, 1, 2) computes 0/0, and the resulting
NaN passes through clamp unchanged (Math.max(NaN, 1) = NaN), so the result
is NaN — not a number lying in [1, 2], nor any finite number at all. -/
theorem claim_C9_counterexample :
    scaleN 0 0 0 1 2 = JSNum.nan ∧
    ∀ q : ℚ, scaleN 0 0 0 1 2 ≠ JSNum.fin q := by
  have h1 : scaleN 0 0 0 1 2 = JSNum.nan := by
    unfold scaleN jsDivF
    rw [show ((0 : ℚ) - 0) = 0 from by norm_num, if_pos rfl,
        if_pos (show ((0 : ℚ)) * (2 - 1) = 0 from by norm_num)]
    rfl
  refine ⟨h1, fun q h => ?_⟩
  rw [h1] at h
  exact JSNum.noConfusion h

/-- Claim C9 (amended). Characterization of scale's output: when
inMax = inMin and the numerator (value - inMin) * (outMax - outMin) is also
zero, the division is 0/0 and the result is NaN, which escapes the clamp;
in every other case the result is a finite number lying within
[min(outMin, outMax), max(outMin, outMax)] (an infinite intermediate is
clamped to an endpoint), including when value is outside [inMin, inMax]. -/
theorem claim_C9 (value inMin inMax outMin outMax : ℚ) :
    (inMax - inMin = 0 ∧ (value - inMin) * (outMax - outMin) = 0 ∧
      scaleN value inMin inMax outMin outMax = JSNum.nan) ∨
    (∃ q : ℚ, scaleN value inMin inMax outMin outMax = JSNum.fin q ∧
      min outMin outMax ≤ q ∧ q ≤ max outMin outMax) := by
  by_cases hden : inMax - inMin = 0
  · by_cases hnum : (value - inMin) * (outMax - outMin) = 0
    · left
      refine ⟨hden, hnum, ?_⟩
      unfold scaleN jsDivF
      rw [if_pos hden, if_pos hnum]
      rfl
    · right
      unfold scaleN jsDivF
      rw [if_pos hden, if_neg hnum]
      rcases lt_or_gt_of_ne hnum with h | h
      · rw [if_neg (not_lt.mpr h.le)]
        exact ⟨min (min outMin outMax) (max outMin outMax), rfl,
          le_min le_rfl min_le_max, min_le_right _ _⟩
      · rw [if_pos h]
        exact ⟨max outMin outMax, rfl, min_le_max, le_rfl⟩
  · right
    have hb : min outMin outMax ≤ scale value inMin inMax outMin outMax ∧
        scale value inMin inMax outMin outMax ≤ max outMin outMax := by
      unfold scale clamp
      exact ⟨le_min (le_max_right _ _) min_le_max, min_le_right _ _⟩
    exact ⟨scale value inMin inMax outMin outMax,
      scaleN_eq_scale value inMin inMax outMin outMax hden, hb.1, hb.2⟩

/-- Claim C4 (confirmed). A getTransformed lookup answers a registered value
only when the stored entry carries exactly the queried color type and theme
id (the key being the exact RGBA quadruple); in particular, after
registering RGBA (10,10,10,1) as background for theme dark, querying it as
text for dark or as background for light both return null. -/
theorem claim_C4 :
    (∀ (reg : Registry) (rgb : RGBA) (ct : ColorType) (tid : String) (now : ℤ)
       (v : String),
       (reg.getTransformed rgb ct tid now).1 = some v →
       ∃ e : RegisteredColor, mapGet reg.registry (Registry.getKey rgb) = some e ∧
         e.colorType = ct ∧ e.themeId = tid ∧ e.transformedHex = v) ∧
    (sampleRegistry.getTransformed ⟨10, 10, 10, 1⟩ .text "dark" 1).1 = none ∧
    (sampleRegistry.getTransformed ⟨10, 10, 10, 1⟩ .background "light" 1).1 = none := by
  refine ⟨?_, by decide, by decide⟩
  intro reg rgb ct tid now v hv
  unfold Registry.getTransformed at hv
  dsimp only at hv
  split at hv
  next heq => simp at hv
  next registered heq =>
    split at hv
    next hmatch => simp at hv
    next hmatch =>
      push_neg at hmatch
      simp only [Option.some.injEq] at hv
      exact ⟨registered, heq, hmatch.1, hmatch.2, hv⟩

/-- Witness for claim C4: instantiating the hit-characterisation at the
sample registry, where the background/dark query does hit. -/
theorem claim_C4_witness :
    ∃ e : RegisteredColor,
      mapGet sampleRegistry.registry (Registry.getKey ⟨10, 10, 10, 1⟩) = some e ∧
      e.colorType = ColorType.background ∧ e.themeId = "dark" ∧
      e.transformedHex = "#111111" :=
  claim_C4.1 sampleRegistry ⟨10, 10, 10, 1⟩ .background "dark" 1 "#111111" (by decide)

/-- Claim C10 (confirmed). The registry holds at most one entry per exact
RGBA key in every reachable state, and register overwrites the existing
entry for an RGBA even when role or theme differ: after registering the same
RGBA under role A / theme X and then under a different pair role B / theme
Y, the query for role A / theme X returns null. -/
theorem claim_C10 :
    (∀ reg : Registry, Registry.Reachable reg → reg.KeysNodup) ∧
    (∀ (reg : Registry) (rgb : RGBA) (ohA ohB thA thB : String)
       (roleA roleB : ColorType) (tidA tidB : String) (nowA nowB nowQ : ℤ),
       (roleA, tidA) ≠ (roleB, tidB) →
       (((reg.register rgb ohA thA roleA tidA nowA).register rgb ohB thB roleB tidB nowB).getTransformed
           rgb roleA tidA nowQ).1 = none) := by
  constructor
  · intro reg hreach
    induction hreach with
    | empty maxSize => simp [Registry.empty, Registry.KeysNodup]
    | register reg rgb oh th ct tid now _ ih => exact keysNodup_register reg rgb oh th ct tid now ih
    | getTransformed reg rgb ct tid now _ ih => exact keysNodup_getTransformed reg rgb ct tid now ih
    | clearTheme reg tid _ ih => exact keysNodup_clearTheme reg tid ih
    | clear reg _ ih => simp [Registry.clear, Registry.KeysNodup]
  · intro reg rgb ohA ohB thA thB roleA roleB tidA tidB nowA nowB nowQ hne
    have hmm : roleB ≠ roleA ∨ tidB ≠ tidA := by
      by_contra hcon
      push_neg at hcon
      exact hne (by simp [hcon.1.symm, hcon.2.symm])
    conv_lhs => rw [Registry.getTransformed]
    rw [show ((reg.register rgb ohA thA roleA tidA nowA).register rgb ohB thB roleB tidB nowB).registry
        = mapSet (if (reg.register rgb ohA thA roleA tidA nowA).registry.length ≥
              (reg.register rgb ohA thA roleA tidA nowA).maxSize ∧
              ¬ mapHas (reg.register rgb ohA thA roleA tidA nowA).registry (Registry.getKey rgb)
            then (reg.register rgb ohA thA roleA tidA nowA).evictLRU nowB
            else (reg.register rgb ohA thA roleA tidA nowA)).registry (Registry.getKey rgb)
          ⟨ohB, rgb, thB, roleB, tidB, nowB, _⟩ from rfl]
    rw [mapGet_mapSet_self]
    rcases hmm with h1 | h1
    · simp [h1]
    · simp [h1]

/-- Witness for claim C10: the invariant at a concrete reachable state, and
the overwrite consequence at concrete roles and themes. -/
theorem claim_C10_witness :
    sampleRegistry.KeysNodup ∧
    ((((Registry.empty).register ⟨7, 7, 7, 1⟩ "#070707" "#aaaaaa" .background "dark" 0).register
        ⟨7, 7, 7, 1⟩ "#070707" "#bbbbbb" .text "light" 1).getTransformed
      ⟨7, 7, 7, 1⟩ .background "dark" 2).1 = none :=
  ⟨claim_C10.1 sampleRegistry
    (Registry.Reachable.register _ _ _ _ _ _ _ (Registry.Reachable.empty 1000)),
   claim_C10.2 Registry.empty ⟨7, 7, 7, 1⟩ "#070707" "#070707" "#aaaaaa" "#bbbbbb"
     .background .text "dark" "light" 0 1 2 (by decide)⟩

/-- Counterexample to claim C5: a node mutated five times with 100 ms
between successive mutations (well inside the 500 ms window) has all five
mutations processed; the fifth is not skipped, because the cycle counter
only reaches 3 at the fifth call and the bailout needs at least 4. -/
theorem claim_C5_counterexample :
    (runLoopGuard LoopState.initial [0, 100, 200, 300, 400]).1 =
      [false, false, false, false, false] := by decide

/-- Claim C5 as amended: within the 500 ms window the sixth mutation (not
the fifth) is the first one skipped; and after 500 ms without a mutation the
cycle counter resets to 0 and the next mutation is processed normally. -/
theorem claim_C5 :
    (∀ t1 t2 t3 t4 t5 t6 : ℤ,
       t2 - t1 < 500 → t3 - t2 < 500 → t4 - t3 < 500 → t5 - t4 < 500 → t6 - t5 < 500 →
       (runLoopGuard LoopState.initial [t1, t2, t3, t4, t5, t6]).1 =
         [false, false, false, false, false, true]) ∧
    (∀ (st : LoopState) (lc now next : ℤ), st.last = some lc →
       500 ≤ now - lc → next - now < 500 →
       (shouldSkipLoopElement st now).1 = false ∧
       (shouldSkipLoopElement st now).2.cycles = 0 ∧
       (shouldSkipLoopElement (shouldSkipLoopElement st now).2 next).1 = false) := by
  constructor
  · intro t1 t2 t3 t4 t5 t6 h12 h23 h34 h45 h56
    simp [runLoopGuard, shouldSkipLoopElement, LoopState.initial,
      LOOP_DETECTION_THRESHOLD, MAX_LOOP_CYCLES, h12, h23, h34, h45, h56]
  · intro st lc now next hlast h500 hnext
    have hcond : ¬ (now - lc < 500) := by omega
    refine ⟨?_, ?_, ?_⟩ <;>
      simp [shouldSkipLoopElement, hlast, hcond, LOOP_DETECTION_THRESHOLD,
        MAX_LOOP_CYCLES, hnext]

/-- Witness for claim C5: the amended guarantees at concrete times: six
rapid mutations from a fresh node, and a quiet-period reset. -/
theorem claim_C5_witness :
    (runLoopGuard LoopState.initial [0, 100, 200, 300, 400, 450]).1 =
      [false, false, false, false, false, true] ∧
    ((shouldSkipLoopElement ⟨some 0, 5⟩ 600).1 = false ∧
     (shouldSkipLoopElement ⟨some 0, 5⟩ 600).2.cycles = 0 ∧
     (shouldSkipLoopElement (shouldSkipLoopElement ⟨some 0, 5⟩ 600).2 700).1 = false) :=
  ⟨claim_C5.1 0 100 200 300 400 450 (by decide) (by decide) (by decide) (by decide)
     (by decide),
   claim_C5.2 ⟨some 0, 5⟩ 0 600 700 rfl (by decide) (by decide)⟩

/-- Claim C3 (code bug), evaluation at the failing input: an engine whose
active theme id is dark receives updateTheme with the light theme, on a
registry holding one entry under dark and one under light. The dark entry
(registered under the previous theme id) survives, and the light entry (the
new theme id) is the one removed, because updateTheme assigns the new theme
to this.theme before calling clearTheme(theme.id), despite its own comment
Clear color registry for old theme. The cache-flush part of the claim does
hold: the transform caches come back empty. -/
theorem claim_C3 :
    mapGet (updateTheme engineOnDark regBeforeUpdate TransformState.empty themeLight
        none).2.1.registry (Registry.getKey ⟨1, 2, 3, 1⟩) =
      some ⟨"#010203", ⟨1, 2, 3, 1⟩, "#aaaaaa", .background, "dark", 0, 1⟩ ∧
    mapGet (updateTheme engineOnDark regBeforeUpdate TransformState.empty themeLight
        none).2.1.registry (Registry.getKey ⟨4, 5, 6, 1⟩) = none ∧
    (updateTheme engineOnDark regBeforeUpdate TransformState.empty themeLight
        none).2.2.palette = [] := by
  refine ⟨by decide, by decide, rfl⟩

/-- Claim C8 (code bug), evaluation at the failing input: parseColor does
return null for the seven CSS keyword values, but on the unparseable hex
string "#zzz" it returns a non-null RGBA whose r, g and b channels are NaN
(modelled as none): parseHex feeds parseInt("zz", 16) = NaN straight into
the result object with no isNaN guard, unlike parseRGB and parseHSL. -/
theorem claim_C8 :
    parseColor "inherit" = none ∧ parseColor "transparent" = none ∧
    parseColor "currentcolor" = none ∧ parseColor "unset" = none ∧
    parseColor "auto" = none ∧ parseColor "none" = none ∧
    parseColor "initial" = none ∧
    parseColor "#zzz" = some ⟨none, none, none, some 1⟩ := by decide

/-! ## Rounding and remainder lemmas for the round-trip proof -/

theorem jsRound_natCast (n : ℕ) : jsRound (n : ℚ) = n := by
  unfold jsRound
  rw [Int.floor_eq_iff]
  push_cast
  constructor <;> linarith

theorem ratTrunc_eq_zero {q : ℚ} (h1 : -1 < q) (h2 : q < 1) : ratTrunc q = 0 := by
  unfold ratTrunc
  split
  · rw [Int.floor_eq_zero_iff]
    constructor
    · assumption
    · exact h2
  · rename_i hq
    push_neg at hq
    have : ⌊-q⌋ = 0 := by
      rw [Int.floor_eq_zero_iff]
      constructor
      · linarith
      · linarith
    simp [this]

theorem ratTrunc_eq_floor {q : ℚ} (h : 0 ≤ q) : ratTrunc q = ⌊q⌋ := if_pos h

theorem jsRem_six {t : ℚ} (h1 : -6 < t) (h2 : t < 6) : jsRem t 6 = t := by
  unfold jsRem
  have ha : t / 6 < 1 := by
    rw [div_lt_one (by norm_num : (0:ℚ) < 6)]
    exact h2
  have hb : -1 < t / 6 := by
    rw [lt_div_iff (by norm_num : (0:ℚ) < 6)]
    linarith
  rw [ratTrunc_eq_zero hb ha]
  ring

theorem jsRem_two_0 {u : ℚ} (h1 : 0 ≤ u) (h2 : u < 2) : jsRem u 2 = u := by
  unfold jsRem
  rw [ratTrunc_eq_zero]
  · ring
  · have : (0:ℚ) ≤ u / 2 := by positivity
    linarith
  · rw [div_lt_one (by norm_num : (0:ℚ) < 2)]
    linarith

theorem jsRem_two_2 {u : ℚ} (h1 : 2 ≤ u) (h2 : u < 4) : jsRem u 2 = u - 2 := by
  unfold jsRem
  rw [ratTrunc_eq_floor (by positivity)]
  have : ⌊u / 2⌋ = 1 := by
    rw [Int.floor_eq_iff]
    constructor
    · push_cast
      linarith
    · push_cast
      linarith
  rw [this]
  push_cast
  ring

theorem jsRem_two_4 {u : ℚ} (h1 : 4 ≤ u) (h2 : u < 6) : jsRem u 2 = u - 4 := by
  unfold jsRem
  rw [ratTrunc_eq_floor (by positivity)]
  have : ⌊u / 2⌋ = 2 := by
    rw [Int.floor_eq_iff]
    constructor
    · push_cast
      linarith
    · push_cast
      linarith
  rw [this]
  push_cast
  ring

/-! ## Gamma correction value bounds -/

/-- The gamma scalar that createGammaMatrix computes for gamma 2.2. -/
noncomputable def gammaV22 : ℝ := (2 : ℝ) ^ ((1 : ℝ) / ((2.2 : ℚ) : ℝ) - 1)

/-- The gamma scalar that createGammaMatrix computes for gamma 2.0. -/
noncomputable def gammaV2 : ℝ := (2 : ℝ) ^ ((1 : ℝ) / ((2 : ℚ) : ℝ) - 1)

theorem gammaV22_eq : gammaV22 = (2 : ℝ) ^ ((-6/11 : ℝ)) := by
  unfold gammaV22
  norm_num

theorem gammaV2_eq : gammaV2 = (2 : ℝ) ^ ((-1/2 : ℝ)) := by
  unfold gammaV2
  norm_num

theorem gammaV22_pos : 0 < gammaV22 := by
  rw [gammaV22_eq]
  exact Real.rpow_pos_of_pos (by norm_num) _

theorem gammaV2_pos : 0 < gammaV2 := by
  rw [gammaV2_eq]
  exact Real.rpow_pos_of_pos (by norm_num) _

theorem gammaV22_pow : gammaV22 ^ (11 : ℕ) = 1 / 64 := by
  rw [gammaV22_eq,
      ← Real.rpow_natCast ((2:ℝ) ^ ((-6/11:ℝ))) 11,
      ← Real.rpow_mul (by norm_num : (0:ℝ) ≤ 2),
      show ((-6/11 : ℝ) * ((11:ℕ):ℝ)) = -((6:ℕ):ℝ) by push_cast; ring,
      Real.rpow_neg (by norm_num : (0:ℝ) ≤ 2), Real.rpow_natCast]
  norm_num

theorem gammaV2_pow : gammaV2 ^ (2 : ℕ) = 1 / 2 := by
  rw [gammaV2_eq,
      ← Real.rpow_natCast ((2:ℝ) ^ ((-1/2:ℝ))) 2,
      ← Real.rpow_mul (by norm_num : (0:ℝ) ≤ 2),
      show ((-1/2 : ℝ) * ((2:ℕ):ℝ)) = -((1:ℕ):ℝ) by push_cast; ring,
      Real.rpow_neg (by norm_num : (0:ℝ) ≤ 2), Real.rpow_natCast]
  norm_num

theorem gammaV22_bounds : (349/510 : ℝ) < gammaV22 ∧ gammaV22 < 351/510 := by
  constructor
  · have h := gammaV22_pow
    have h1 : (349/510 : ℝ) ^ (11:ℕ) < gammaV22 ^ (11:ℕ) := by
      rw [h]
      norm_num
    exact (pow_lt_pow_iff_left (by norm_num) (le_of_lt gammaV22_pos) (by norm_num)).mp h1
  · have h := gammaV22_pow
    have h1 : gammaV22 ^ (11:ℕ) < (351/510 : ℝ) ^ (11:ℕ) := by
      rw [h]
      norm_num
    exact (pow_lt_pow_iff_left (le_of_lt gammaV22_pos) (by norm_num) (by norm_num)).mp h1

theorem gammaV2_bounds : (359/510 : ℝ) < gammaV2 ∧ gammaV2 < 361/510 := by
  constructor
  · have h := gammaV2_pow
    have h1 : (359/510 : ℝ) ^ (2:ℕ) < gammaV2 ^ (2:ℕ) := by
      rw [h]
      norm_num
    exact (pow_lt_pow_iff_left (by norm_num) (le_of_lt gammaV2_pos) (by norm_num)).mp h1
  · have h := gammaV2_pow
    have h1 : gammaV2 ^ (2:ℕ) < (361/510 : ℝ) ^ (2:ℕ) := by
      rw [h]
      norm_num
    exact (pow_lt_pow_iff_left (le_of_lt gammaV2_pos) (by norm_num) (by norm_num)).mp h1

theorem gammaV22_le_one : gammaV22 ≤ 1 := by
  rw [gammaV22_eq]
  exact Real.rpow_le_one_of_one_le_of_nonpos (by norm_num) (by norm_num)

theorem gammaV2_le_one : gammaV2 ≤ 1 := by
  rw [gammaV2_eq]
  exact Real.rpow_le_one_of_one_le_of_nonpos (by norm_num) (by norm_num)

theorem jsRoundR_eq_of_bounds (x : ℝ) (n : ℤ) (h1 : (n : ℝ) ≤ x + 1/2)
    (h2 : x + 1/2 < (n : ℝ) + 1) : jsRoundR x = n := by
  unfold jsRoundR
  rw [Int.floor_eq_iff]
  exact ⟨h1, by push_cast; linarith⟩

/-! ## Concrete evaluation lemmas for the sample themes -/

theorem composeMatrices_identity (m : ColorMatrix) :
    composeMatrices IDENTITY_MATRIX m = m := by
  obtain ⟨m0, m1, m2, m3, m4, m5, m6, m7, m8⟩ := m
  simp only [composeMatrices, IDENTITY_MATRIX, ColorMatrix.mk.injEq]
  refine ⟨?_, ?_, ?_, ?_, ?_, ?_, ?_, ?_, ?_⟩ <;> ring

theorem createFilterMatrix_nofilters_light (theme : ThemeProfile)
    (h : theme.filters = none) :
    createFilterMatrix theme false = ⟨gammaV22, 0, 0, 0, gammaV22, 0, 0, 0, gammaV22⟩ := by
  unfold createFilterMatrix
  rw [h]
  simp only [Option.getD_none]
  rw [if_neg (by decide : ¬((false : Bool) = true)), composeMatrices_identity]
  rfl

theorem createFilterMatrix_nofilters_dark (theme : ThemeProfile)
    (h : theme.filters = none) :
    createFilterMatrix theme true = ⟨gammaV2, 0, 0, 0, gammaV2, 0, 0, 0, gammaV2⟩ := by
  unfold createFilterMatrix
  rw [h]
  simp only [Option.getD_none]
  rw [if_pos trivial, composeMatrices_identity]
  rfl

theorem applyColorMatrix_scalar_white (v : ℝ) (hv0 : 0 ≤ v) (hv1 : v ≤ 1) (n : ℤ)
    (hn1 : (n : ℝ) ≤ v * 255 + 1/2) (hn2 : v * 255 + 1/2 < (n : ℝ) + 1) :
    applyColorMatrix ⟨255, 255, 255, 1⟩ ⟨v, 0, 0, 0, v, 0, 0, 0, v⟩ =
      ⟨(n : ℚ), (n : ℚ), (n : ℚ), 1⟩ := by
  unfold applyColorMatrix
  dsimp only
  have h1 : v * (((255:ℚ):ℝ) / 255) + 0 * (((255:ℚ):ℝ) / 255) +
      0 * (((255:ℚ):ℝ) / 255) = v := by push_cast; ring
  have h2 : 0 * (((255:ℚ):ℝ) / 255) + v * (((255:ℚ):ℝ) / 255) +
      0 * (((255:ℚ):ℝ) / 255) = v := by push_cast; ring
  have h3 : 0 * (((255:ℚ):ℝ) / 255) + 0 * (((255:ℚ):ℝ) / 255) +
      v * (((255:ℚ):ℝ) / 255) = v := by push_cast; ring
  rw [h1, h2, h3]
  have hclamp : max (0:ℝ) (min 1 v) = v := by
    rw [min_eq_right hv1, max_eq_right hv0]
  rw [hclamp, jsRoundR_eq_of_bounds (v * 255) n hn1 hn2]

theorem applyColorMatrix_scalar_black (v : ℝ) :
    applyColorMatrix ⟨0, 0, 0, 1⟩ ⟨v, 0, 0, 0, v, 0, 0, 0, v⟩ = ⟨0, 0, 0, 1⟩ := by
  unfold applyColorMatrix
  dsimp only
  have h1 : v * (((0:ℚ):ℝ) / 255) + 0 * (((0:ℚ):ℝ) / 255) +
      0 * (((0:ℚ):ℝ) / 255) = 0 := by push_cast; ring
  have h2 : 0 * (((0:ℚ):ℝ) / 255) + v * (((0:ℚ):ℝ) / 255) +
      0 * (((0:ℚ):ℝ) / 255) = 0 := by push_cast; ring
  have h3 : 0 * (((0:ℚ):ℝ) / 255) + 0 * (((0:ℚ):ℝ) / 255) +
      v * (((0:ℚ):ℝ) / 255) = 0 := by push_cast; ring
  rw [h1, h2, h3]
  have hclamp : max (0:ℝ) (min 1 0) = 0 := by norm_num
  rw [hclamp, show (0:ℝ) * 255 = 0 by ring,
      jsRoundR_eq_of_bounds 0 0 (by norm_num) (by norm_num)]
  norm_num

theorem applyColorMatrix_gamma22_white :
    applyColorMatrix ⟨255, 255, 255, 1⟩ ⟨gammaV22, 0, 0, 0, gammaV22, 0, 0, 0, gammaV22⟩ =
      ⟨175, 175, 175, 1⟩ := by
  have hb := gammaV22_bounds
  have h := applyColorMatrix_scalar_white gammaV22 (le_of_lt gammaV22_pos) gammaV22_le_one
    175 (by nlinarith [hb.1]) (by nlinarith [hb.2])
  rw [h]
  norm_num

theorem applyColorMatrix_gamma2_white :
    applyColorMatrix ⟨255, 255, 255, 1⟩ ⟨gammaV2, 0, 0, 0, gammaV2, 0, 0, 0, gammaV2⟩ =
      ⟨180, 180, 180, 1⟩ := by
  have hb := gammaV2_bounds
  have h := applyColorMatrix_scalar_white gammaV2 (le_of_lt gammaV2_pos) gammaV2_le_one
    180 (by nlinarith [hb.1]) (by nlinarith [hb.2])
  rw [h]
  norm_num

theorem rgbToHSL_white : rgbToHSL ⟨255, 255, 255, 1⟩ = ⟨0, 0, 1, 1⟩ := by
  unfold rgbToHSL
  norm_num

theorem rgbToHSL_black : rgbToHSL ⟨0, 0, 0, 1⟩ = ⟨0, 0, 0, 1⟩ := by
  unfold rgbToHSL
  norm_num

theorem jsRound_255 : jsRound (255 : ℚ) = 255 := by
  unfold jsRound
  rw [Int.floor_eq_iff]
  constructor <;> norm_num

theorem jsRound_0 : jsRound (0 : ℚ) = 0 := by
  unfold jsRound
  rw [Int.floor_eq_iff]
  constructor <;> norm_num

theorem hslToRGB_whitepoint : hslToRGB ⟨0, 0, 1, 1⟩ = ⟨255, 255, 255, 1⟩ := by
  unfold hslToRGB
  rw [if_pos rfl]
  dsimp only
  rw [show (1:ℚ) * 255 = 255 by norm_num, jsRound_255]
  norm_num

theorem hslToRGB_blackpoint : hslToRGB ⟨0, 0, 0, 1⟩ = ⟨0, 0, 0, 1⟩ := by
  unfold hslToRGB
  rw [if_pos rfl]
  dsimp only
  rw [show (0:ℚ) * 255 = 0 by norm_num, jsRound_0]
  norm_num

theorem getColorPoles_themeDark :
    getColorPoles themeDark = ⟨⟨0, 0, 0, 1⟩, ⟨0, 0, 1, 1⟩, ⟨0, 0, 0, 1⟩⟩ := by
  unfold getColorPoles
  have hb : (parseColor themeDark.palette.background).bind RGBAn.toRGBA =
      some ⟨0, 0, 0, 1⟩ := by decide
  have ht : (parseColor themeDark.palette.text).bind RGBAn.toRGBA =
      some ⟨255, 255, 255, 1⟩ := by decide
  have hs : (parseColor themeDark.palette.surface).bind RGBAn.toRGBA =
      some ⟨0, 0, 0, 1⟩ := by decide
  rw [hb, ht, hs]
  simp only [rgbToHSL_white, rgbToHSL_black]

theorem getColorPoles_themeLight :
    getColorPoles themeLight = ⟨⟨0, 0, 1, 1⟩, ⟨0, 0, 0, 1⟩, ⟨0, 0, 1, 1⟩⟩ := by
  unfold getColorPoles
  have hb : (parseColor themeLight.palette.background).bind RGBAn.toRGBA =
      some ⟨255, 255, 255, 1⟩ := by decide
  have ht : (parseColor themeLight.palette.text).bind RGBAn.toRGBA =
      some ⟨0, 0, 0, 1⟩ := by decide
  have hs : (parseColor themeLight.palette.surface).bind RGBAn.toRGBA =
      some ⟨255, 255, 255, 1⟩ := by decide
  rw [hb, ht, hs]
  simp only [rgbToHSL_white, rgbToHSL_black]

theorem transformForegroundDarkMode_white :
    transformForegroundDarkMode ⟨0, 0, 1, 1⟩ ⟨⟨0, 0, 0, 1⟩, ⟨0, 0, 1, 1⟩, ⟨0, 0, 0, 1⟩⟩
      themeDark = ⟨0, 0, 1, 1⟩ := by
  unfold transformForegroundDarkMode
  norm_num [themeDark, isNeutralColor, scale, clamp, isBlueHue, MIN_FG_LIGHTNESS]

theorem transformBackgroundDarkMode_white :
    transformBackgroundDarkMode ⟨0, 0, 1, 1⟩ ⟨⟨0, 0, 0, 1⟩, ⟨0, 0, 1, 1⟩, ⟨0, 0, 0, 1⟩⟩
      themeDark = ⟨0, 0, 0, 1⟩ := by
  unfold transformBackgroundDarkMode
  norm_num [themeDark, isNeutralColor, scale, clamp, isBlueHue, isYellowHue,
    MAX_BG_LIGHTNESS]

theorem transformBackgroundLightMode_white :
    transformBackgroundLightMode ⟨0, 0, 1, 1⟩ ⟨⟨0, 0, 1, 1⟩, ⟨0, 0, 0, 1⟩, ⟨0, 0, 1, 1⟩⟩
      themeLight = ⟨0, 0, 1, 1⟩ := by
  unfold transformBackgroundLightMode
  norm_num [themeLight, isNeutralColor, scale, clamp]

theorem jsRound_175 : jsRound (175 : ℚ) = 175 := by
  unfold jsRound
  rw [Int.floor_eq_iff]
  constructor <;> norm_num

theorem jsRound_180 : jsRound (180 : ℚ) = 180 := by
  unfold jsRound
  rw [Int.floor_eq_iff]
  constructor <;> norm_num

theorem rgbToHex_175 : rgbToHex ⟨175, 175, 175, 1⟩ = "#afafaf" := by
  have h1 : ¬ ((1 : ℚ) < 1) := by norm_num
  simp only [rgbToHex, toHexChannel, jsRound_175, h1, if_false]
  decide

theorem rgbToHex_180 : rgbToHex ⟨180, 180, 180, 1⟩ = "#b4b4b4" := by
  have h1 : ¬ ((1 : ℚ) < 1) := by norm_num
  simp only [rgbToHex, toHexChannel, jsRound_180, h1, if_false]
  decide

theorem rgbToHex_black : rgbToHex ⟨0, 0, 0, 1⟩ = "#000000" := by
  have h1 : ¬ ((1 : ℚ) < 1) := by norm_num
  simp only [rgbToHex, toHexChannel, jsRound_0, h1, if_false]
  decide

theorem applyThemeFilters_none (hsl : HSLA) : applyThemeFilters hsl none = hsl := rfl

theorem modifyColorPure_fgDark_white :
    modifyColorPure ⟨255, 255, 255, 1⟩ themeDark .foregroundDark
      ⟨gammaV22, 0, 0, 0, gammaV22, 0, 0, 0, gammaV22⟩ = "#afafaf" := by
  unfold modifyColorPure
  rw [getColorPoles_themeDark, rgbToHSL_white]
  show rgbToHex (applyColorMatrix (hslToRGB (applyThemeFilters
    (transformForegroundDarkMode ⟨0, 0, 1, 1⟩ _ themeDark) themeDark.filters)) _) = _
  rw [transformForegroundDarkMode_white]
  rw [show themeDark.filters = none from rfl, applyThemeFilters_none,
      hslToRGB_whitepoint, applyColorMatrix_gamma22_white, rgbToHex_175]

theorem modifyColorPure_fgDark_white_darkMatrix :
    modifyColorPure ⟨255, 255, 255, 1⟩ themeDark .foregroundDark
      ⟨gammaV2, 0, 0, 0, gammaV2, 0, 0, 0, gammaV2⟩ = "#b4b4b4" := by
  unfold modifyColorPure
  rw [getColorPoles_themeDark, rgbToHSL_white]
  show rgbToHex (applyColorMatrix (hslToRGB (applyThemeFilters
    (transformForegroundDarkMode ⟨0, 0, 1, 1⟩ _ themeDark) themeDark.filters)) _) = _
  rw [transformForegroundDarkMode_white]
  rw [show themeDark.filters = none from rfl, applyThemeFilters_none,
      hslToRGB_whitepoint, applyColorMatrix_gamma2_white, rgbToHex_180]

theorem modifyColorPure_bgDark_white :
    modifyColorPure ⟨255, 255, 255, 1⟩ themeDark .backgroundDark
      ⟨gammaV22, 0, 0, 0, gammaV22, 0, 0, 0, gammaV22⟩ = "#000000" := by
  unfold modifyColorPure
  rw [getColorPoles_themeDark, rgbToHSL_white]
  show rgbToHex (applyColorMatrix (hslToRGB (applyThemeFilters
    (transformBackgroundDarkMode ⟨0, 0, 1, 1⟩ _ themeDark) themeDark.filters)) _) = _
  rw [transformBackgroundDarkMode_white]
  rw [show themeDark.filters = none from rfl, applyThemeFilters_none,
      hslToRGB_blackpoint, applyColorMatrix_scalar_black, rgbToHex_black]

theorem modifyColorPure_bgLight_white :
    modifyColorPure ⟨255, 255, 255, 1⟩ themeLight .backgroundLight
      ⟨gammaV22, 0, 0, 0, gammaV22, 0, 0, 0, gammaV22⟩ = "#afafaf" := by
  unfold modifyColorPure
  rw [getColorPoles_themeLight, rgbToHSL_white]
  show rgbToHex (applyColorMatrix (hslToRGB (applyThemeFilters
    (transformBackgroundLightMode ⟨0, 0, 1, 1⟩ _ themeLight) themeLight.filters)) _) = _
  rw [transformBackgroundLightMode_white]
  rw [show themeLight.filters = none from rfl, applyThemeFilters_none,
      hslToRGB_whitepoint, applyColorMatrix_gamma22_white, rgbToHex_175]

theorem modifyColorWithCache_emptyCaches (st : TransformState) (rgb : RGBA)
    (theme : ThemeProfile) (m : HSLModifier)
    (hmod : st.modCache = []) (hmat : st.matrixCache = []) :
    (modifyColorWithCache st rgb theme m).1 =
      modifyColorPure rgb theme m (createFilterMatrix theme false) := by
  cases m <;>
  · unfold modifyColorWithCache getCachedFilterMatrix HSLModifier.tag
    rw [hmod, hmat]
    rfl

theorem detectThemeMode_themeDark : detectThemeMode themeDark = ThemeMode.dark := by
  decide

theorem detectThemeMode_themeLight : detectThemeMode themeLight = ThemeMode.light := by
  decide

theorem modifyColorPerMode_fgDark_white :
    modifyColorPerMode ⟨255, 255, 255, 1⟩ themeDark HSLModifier.foregroundDark = "#b4b4b4" := by
  show modifyColorPure ⟨255, 255, 255, 1⟩ themeDark HSLModifier.foregroundDark
    (createFilterMatrix themeDark true) = _
  rw [createFilterMatrix_nofilters_dark themeDark rfl,
      modifyColorPure_fgDark_white_darkMatrix]

theorem modifyColorWithCache_fgDark_white :
    (modifyColorWithCache TransformState.empty ⟨255, 255, 255, 1⟩ themeDark
      HSLModifier.foregroundDark).1 = "#afafaf" := by
  rw [modifyColorWithCache_emptyCaches _ _ _ _ rfl rfl,
      createFilterMatrix_nofilters_light themeDark rfl, modifyColorPure_fgDark_white]

/-- C2 counterexample: on the dark theme (a dark output mode), the
implemented cache path transforms white foreground text to the hex of the
gamma-2.2 matrix output (175-gray), while the matrix built for the theme's
current mode (gamma 2.0, per the claim) would give 180-gray: the code always
requests the light-mode matrix. -/
theorem claim_C2_counterexample :
    (modifyColorWithCache TransformState.empty ⟨255, 255, 255, 1⟩ themeDark
        HSLModifier.foregroundDark).1 = "#afafaf" ∧
    modifyColorPerMode ⟨255, 255, 255, 1⟩ themeDark HSLModifier.foregroundDark = "#b4b4b4" ∧
    ("#afafaf" : String) ≠ "#b4b4b4" :=
  ⟨modifyColorWithCache_fgDark_white, modifyColorPerMode_fgDark_white, by decide⟩

/-- C2 (amended): starting from empty caches, the perceptual-correction step
of modifyColorWithCache applies the matrix createFilterMatrix theme false —
the gamma-2.2 (light-disposition) matrix — for every theme, including dark
and night-warm ones. -/
theorem claim_C2 (st : TransformState) (rgb : RGBA) (theme : ThemeProfile)
    (m : HSLModifier) (hmod : st.modCache = []) (hmat : st.matrixCache = []) :
    (modifyColorWithCache st rgb theme m).1 =
      modifyColorPure rgb theme m (createFilterMatrix theme false) :=
  modifyColorWithCache_emptyCaches st rgb theme m hmod hmat

theorem claim_C2_witness :
    TransformState.empty.modCache = [] ∧ TransformState.empty.matrixCache = [] ∧
    (modifyColorWithCache TransformState.empty ⟨255, 255, 255, 1⟩ themeDark
        HSLModifier.foregroundDark).1 =
      modifyColorPure ⟨255, 255, 255, 1⟩ themeDark HSLModifier.foregroundDark
        (createFilterMatrix themeDark false) :=
  ⟨rfl, rfl, claim_C2 TransformState.empty ⟨255, 255, 255, 1⟩ themeDark
    HSLModifier.foregroundDark rfl rfl⟩

theorem transformColor_hit (st : TransformState) (rgb : RGBA) (ct : ColorType)
    (theme : ThemeProfile) (r : String)
    (h : getRegisteredColor st.palette ct rgb = some r) :
    transformColor st rgb ct theme = (r, st) := by
  simp only [transformColor, Option.getD_none, if_true, h]

theorem transformColor_registers (st : TransformState) (rgb : RGBA) (ct : ColorType)
    (theme : ThemeProfile) :
    getRegisteredColor (transformColor st rgb ct theme).2.palette ct rgb =
      some (transformColor st rgb ct theme).1 := by
  cases hreg : getRegisteredColor st.palette ct rgb with
  | some r =>
    rw [transformColor_hit st rgb ct theme r hreg]
    exact hreg
  | none =>
    simp only [transformColor, Option.getD_none, if_true, hreg]
    exact mapGet_mapSet_self _ _ _

theorem transformColor_dark_white_run :
    (transformColor TransformState.empty ⟨255, 255, 255, 1⟩ ColorType.background
      themeDark).1 = "#000000" := by
  have hmiss : getRegisteredColor TransformState.empty.palette ColorType.background
      ⟨255, 255, 255, 1⟩ = none := rfl
  simp only [transformColor, Option.getD_none, if_true, hmiss, detectThemeMode_themeDark]
  rw [modifyColorWithCache_emptyCaches _ _ _ _ rfl rfl,
      createFilterMatrix_nofilters_light themeDark rfl,
      if_pos (show True ∨ ThemeMode.dark = ThemeMode.nightWarm from Or.inl trivial),
      modifyColorPure_bgDark_white]

theorem transformColor_light_white_run :
    (transformColor TransformState.empty ⟨255, 255, 255, 1⟩ ColorType.background
      themeLight).1 = "#afafaf" := by
  have hmiss : getRegisteredColor TransformState.empty.palette ColorType.background
      ⟨255, 255, 255, 1⟩ = none := rfl
  simp only [transformColor, Option.getD_none, if_true, hmiss, detectThemeMode_themeLight]
  rw [modifyColorWithCache_emptyCaches _ _ _ _ rfl rfl,
      createFilterMatrix_nofilters_light themeLight rfl,
      if_neg (show ¬ (ThemeMode.light = ThemeMode.dark ∨
        ThemeMode.light = ThemeMode.nightWarm) by decide),
      modifyColorPure_bgLight_white]

/-- C1 counterexample: after a dark-theme transformColor call registers
white-as-background in the shared palette, a light-theme call with the same
rgb and role returns the dark theme's result "#000000", while the same
light-theme call from a fresh state returns "#afafaf": the palette is not
keyed by theme, so the output is not a function of (rgb, role, theme). -/
theorem claim_C1_counterexample :
    (transformColor
        (transformColor TransformState.empty ⟨255, 255, 255, 1⟩ ColorType.background
          themeDark).2
        ⟨255, 255, 255, 1⟩ ColorType.background themeLight).1 = "#000000" ∧
    (transformColor TransformState.empty ⟨255, 255, 255, 1⟩ ColorType.background
      themeLight).1 = "#afafaf" ∧
    ("#000000" : String) ≠ "#afafaf" := by
  refine ⟨?_, transformColor_light_white_run, by decide⟩
  have hreg := transformColor_registers TransformState.empty ⟨255, 255, 255, 1⟩
    ColorType.background themeDark
  rw [transformColor_dark_white_run] at hreg
  rw [transformColor_hit _ _ _ _ _ hreg]

/-- C1 (amended): transformColor is deterministic only on palette misses
with empty caches: two calls whose states both miss the palette for
(colorType, rgb) and have empty modifier and matrix caches return the same
string for the same (rgb, colorType, theme), whatever else the two states
contain. -/
theorem claim_C1 (st₁ st₂ : TransformState) (rgb : RGBA) (ct : ColorType)
    (theme : ThemeProfile)
    (h₁p : getRegisteredColor st₁.palette ct rgb = none)
    (h₁m : st₁.modCache = []) (h₁x : st₁.matrixCache = [])
    (h₂p : getRegisteredColor st₂.palette ct rgb = none)
    (h₂m : st₂.modCache = []) (h₂x : st₂.matrixCache = []) :
    (transformColor st₁ rgb ct theme).1 = (transformColor st₂ rgb ct theme).1 := by
  simp only [transformColor, Option.getD_none, if_true, h₁p, h₂p]
  rw [modifyColorWithCache_emptyCaches st₁ rgb theme _ h₁m h₁x,
      modifyColorWithCache_emptyCaches st₂ rgb theme _ h₂m h₂x]

theorem claim_C1_witness :
    getRegisteredColor TransformState.empty.palette ColorType.background
      ⟨255, 255, 255, 1⟩ = none ∧
    TransformState.empty.modCache = [] ∧ TransformState.empty.matrixCache = [] ∧
    getRegisteredColor paletteOther.palette ColorType.background
      ⟨255, 255, 255, 1⟩ = none ∧
    paletteOther.modCache = [] ∧ paletteOther.matrixCache = [] ∧
    (transformColor TransformState.empty ⟨255, 255, 255, 1⟩ ColorType.background
        themeDark).1 =
      (transformColor paletteOther ⟨255, 255, 255, 1⟩ ColorType.background themeDark).1 :=
  ⟨by decide, rfl, rfl, by decide, rfl, rfl,
    claim_C1 TransformState.empty paletteOther ⟨255, 255, 255, 1⟩ ColorType.background
      themeDark (by decide) rfl rfl (by decide) rfl rfl⟩

/-! ## Contrast repair evaluation -/

theorem lumChannel_zero : luminanceChannel 0 = 0 := by
  simp only [luminanceChannel]
  rw [if_pos (by norm_num : ((0 : ℚ) / 255) ≤ 0.03928)]
  norm_num

theorem lum_black : getRelativeLuminance ⟨0, 0, 0⟩ = 0 := by
  unfold getRelativeLuminance
  rw [lumChannel_zero]
  ring

theorem lum_gray (g : ℚ) (h : ¬ (g / 255 ≤ 0.03928)) :
    getRelativeLuminance ⟨g, g, g⟩ =
      (((g / 255 + 0.055) / 1.055 : ℚ) : ℝ) ^ (2.4 : ℝ) := by
  have hch : luminanceChannel g =
      (((g / 255 + 0.055) / 1.055 : ℚ) : ℝ) ^ (2.4 : ℝ) := by
    simp only [luminanceChannel]
    rw [if_neg h]
  unfold getRelativeLuminance
  rw [hch]
  ring

theorem lum_gray_nonneg (g : ℚ) (h : ¬ (g / 255 ≤ 0.03928))
    (hp : (0 : ℚ) < (g / 255 + 0.055) / 1.055) :
    0 ≤ getRelativeLuminance ⟨g, g, g⟩ := by
  rw [lum_gray g h]
  exact le_of_lt (Real.rpow_pos_of_pos (by exact_mod_cast hp) _)

theorem ratio_black (c : RGBt) (h : 0 ≤ getRelativeLuminance c) :
    getContrastRatio c ⟨0, 0, 0⟩ = (getRelativeLuminance c + 0.05) / 0.05 := by
  simp only [getContrastRatio]
  rw [lum_black, max_eq_left h, min_eq_right h]
  norm_num

theorem rpow24_lt_iff (x c : ℚ) (hx : (0 : ℚ) < x) (hc : (0 : ℚ) < c) :
    ((x : ℝ) ^ (2.4 : ℝ) < (c : ℝ)) ↔ (x ^ 12 < c ^ 5) := by
  have hxR : (0 : ℝ) < (x : ℝ) := by exact_mod_cast hx
  have hcR : (0 : ℝ) < (c : ℝ) := by exact_mod_cast hc
  have e1 : ((x : ℝ) ^ (2.4 : ℝ)) ^ (5 : ℕ) = (x : ℝ) ^ (12 : ℕ) := by
    rw [← Real.rpow_natCast ((x : ℝ) ^ (2.4 : ℝ)) 5, ← Real.rpow_mul hxR.le,
        show ((2.4 : ℝ) * ((5 : ℕ) : ℝ)) = ((12 : ℕ) : ℝ) by push_cast; norm_num,
        Real.rpow_natCast]
  constructor
  · intro h
    have h2 : ((x : ℝ) ^ (2.4 : ℝ)) ^ (5 : ℕ) < (c : ℝ) ^ (5 : ℕ) := by
      gcongr
    rw [e1] at h2
    exact_mod_cast h2
  · intro h
    have h2 : (x : ℝ) ^ (12 : ℕ) < (c : ℝ) ^ (5 : ℕ) := by exact_mod_cast h
    rw [← e1] at h2
    exact lt_of_pow_lt_pow_left 5 hcR.le h2

theorem rpow24_ge_iff (x c : ℚ) (hx : (0 : ℚ) < x) (hc : (0 : ℚ) < c) :
    ((c : ℝ) ≤ (x : ℝ) ^ (2.4 : ℝ)) ↔ (c ^ 5 ≤ x ^ 12) := by
  rw [← not_lt, ← not_lt, rpow24_lt_iff x c hx hc]

theorem ratio_gray_lt (g : ℚ) (hknee : ¬ (g / 255 ≤ 0.03928))
    (hpos : (0 : ℚ) < (g / 255 + 0.055) / 1.055)
    (h12 : ((g / 255 + 0.055) / 1.055) ^ 12 < (0.175 : ℚ) ^ 5) :
    getContrastRatio ⟨g, g, g⟩ ⟨0, 0, 0⟩ < 4.5 := by
  have hnn := lum_gray_nonneg g hknee hpos
  rw [ratio_black _ hnn, lum_gray g hknee]
  have h := (rpow24_lt_iff _ (0.175 : ℚ) hpos (by norm_num)).mpr h12
  have hc : (((0.175 : ℚ)) : ℝ) = (0.175 : ℝ) := by norm_num
  rw [hc] at h
  rw [div_lt_iff (by norm_num : (0 : ℝ) < 0.05)]
  linarith

theorem ratio_gray_ge (g : ℚ) (hknee : ¬ (g / 255 ≤ 0.03928))
    (hpos : (0 : ℚ) < (g / 255 + 0.055) / 1.055)
    (h12 : (0.175 : ℚ) ^ 5 ≤ ((g / 255 + 0.055) / 1.055) ^ 12) :
    4.5 ≤ getContrastRatio ⟨g, g, g⟩ ⟨0, 0, 0⟩ := by
  have hnn := lum_gray_nonneg g hknee hpos
  rw [ratio_black _ hnn, lum_gray g hknee]
  have h := (rpow24_ge_iff _ (0.175 : ℚ) hpos (by norm_num)).mpr h12
  have hc : (((0.175 : ℚ)) : ℝ) = (0.175 : ℝ) := by norm_num
  rw [hc] at h
  rw [le_div_iff (by norm_num : (0 : ℝ) < 0.05)]
  linarith

theorem lum_gray_mono (g g' : ℚ) (hg : (0 : ℚ) ≤ g) (h : g ≤ g')
    (hk : ¬ (g / 255 ≤ 0.03928)) (hk' : ¬ (g' / 255 ≤ 0.03928)) :
    getRelativeLuminance ⟨g, g, g⟩ ≤ getRelativeLuminance ⟨g', g', g'⟩ := by
  rw [lum_gray g hk, lum_gray g' hk']
  apply Real.rpow_le_rpow
  · have hq : (0 : ℚ) ≤ (g / 255 + 0.055) / 1.055 := by
      apply div_nonneg _ (by norm_num)
      have h255 : (0 : ℚ) ≤ g / 255 := div_nonneg hg (by norm_num)
      linarith
    exact_mod_cast hq
  · have hq : (g / 255 + 0.055) / 1.055 ≤ (g' / 255 + 0.055) / 1.055 := by gcongr
    exact_mod_cast hq
  · norm_num

theorem ratio_gray_mono (g g' : ℚ) (hg : (0 : ℚ) ≤ g) (h : g ≤ g')
    (hk : ¬ (g / 255 ≤ 0.03928)) (hk' : ¬ (g' / 255 ≤ 0.03928))
    (hpos : (0 : ℚ) < (g / 255 + 0.055) / 1.055)
    (hpos' : (0 : ℚ) < (g' / 255 + 0.055) / 1.055) :
    getContrastRatio ⟨g, g, g⟩ ⟨0, 0, 0⟩ ≤ getContrastRatio ⟨g', g', g'⟩ ⟨0, 0, 0⟩ := by
  rw [ratio_black _ (lum_gray_nonneg g hk hpos), ratio_black _ (lum_gray_nonneg g' hk' hpos')]
  have hm := lum_gray_mono g g' hg h hk hk'
  have e : ∀ L : ℝ, (L + 0.05) / 0.05 = 20 * L + 1 := by intro L; ring
  rw [e, e]
  linarith

theorem adjustStep_true_gray (g : ℚ) (h : g + 15 ≤ 255) :
    adjustStep true ⟨g, g, g⟩ = ⟨g + 15, g + 15, g + 15⟩ := by
  unfold adjustStep
  rw [if_pos rfl]
  simp only [min_eq_right h]

theorem adjustLoop_succ (bg : RGBt) (t : ℝ) (s : Bool) (n : ℕ) (a : RGBt) :
    adjustLoop bg t s (n + 1) a =
      if t ≤ getContrastRatio (adjustStep s a) bg then adjustStep s a
      else adjustLoop bg t s n (adjustStep s a) := rfl

theorem ratio34_lt : getContrastRatio ⟨34, 34, 34⟩ ⟨0, 0, 0⟩ < 4.5 :=
  ratio_gray_lt 34 (by norm_num) (by norm_num) (by norm_num)

theorem ratio49_lt : getContrastRatio ⟨49, 49, 49⟩ ⟨0, 0, 0⟩ < 4.5 :=
  ratio_gray_lt 49 (by norm_num) (by norm_num) (by norm_num)

theorem ratio64_lt : getContrastRatio ⟨64, 64, 64⟩ ⟨0, 0, 0⟩ < 4.5 :=
  ratio_gray_lt 64 (by norm_num) (by norm_num) (by norm_num)

theorem ratio79_lt : getContrastRatio ⟨79, 79, 79⟩ ⟨0, 0, 0⟩ < 4.5 :=
  ratio_gray_lt 79 (by norm_num) (by norm_num) (by norm_num)

theorem ratio94_lt : getContrastRatio ⟨94, 94, 94⟩ ⟨0, 0, 0⟩ < 4.5 :=
  ratio_gray_lt 94 (by norm_num) (by norm_num) (by norm_num)

theorem ratio109_lt : getContrastRatio ⟨109, 109, 109⟩ ⟨0, 0, 0⟩ < 4.5 :=
  ratio_gray_lt 109 (by norm_num) (by norm_num) (by norm_num)

theorem ratio124_ge : 4.5 ≤ getContrastRatio ⟨124, 124, 124⟩ ⟨0, 0, 0⟩ :=
  ratio_gray_ge 124 (by norm_num) (by norm_num) (by norm_num)

theorem step34 : adjustStep true ⟨34, 34, 34⟩ = ⟨49, 49, 49⟩ := by
  rw [adjustStep_true_gray 34 (by norm_num)]
  norm_num

theorem step49 : adjustStep true ⟨49, 49, 49⟩ = ⟨64, 64, 64⟩ := by
  rw [adjustStep_true_gray 49 (by norm_num)]
  norm_num

theorem step64 : adjustStep true ⟨64, 64, 64⟩ = ⟨79, 79, 79⟩ := by
  rw [adjustStep_true_gray 64 (by norm_num)]
  norm_num

theorem step79 : adjustStep true ⟨79, 79, 79⟩ = ⟨94, 94, 94⟩ := by
  rw [adjustStep_true_gray 79 (by norm_num)]
  norm_num

theorem step94 : adjustStep true ⟨94, 94, 94⟩ = ⟨109, 109, 109⟩ := by
  rw [adjustStep_true_gray 94 (by norm_num)]
  norm_num

theorem step109 : adjustStep true ⟨109, 109, 109⟩ = ⟨124, 124, 124⟩ := by
  rw [adjustStep_true_gray 109 (by norm_num)]
  norm_num

theorem adjustLoop_eval :
    adjustLoop ⟨0, 0, 0⟩ 4.5 true 20 ⟨34, 34, 34⟩ = ⟨124, 124, 124⟩ := by
  rw [show (20 : ℕ) = 19 + 1 from rfl, adjustLoop_succ, step34,
      if_neg (not_le.mpr ratio49_lt)]
  rw [show (19 : ℕ) = 18 + 1 from rfl, adjustLoop_succ, step49,
      if_neg (not_le.mpr ratio64_lt)]
  rw [show (18 : ℕ) = 17 + 1 from rfl, adjustLoop_succ, step64,
      if_neg (not_le.mpr ratio79_lt)]
  rw [show (17 : ℕ) = 16 + 1 from rfl, adjustLoop_succ, step79,
      if_neg (not_le.mpr ratio94_lt)]
  rw [show (16 : ℕ) = 15 + 1 from rfl, adjustLoop_succ, step94,
      if_neg (not_le.mpr ratio109_lt)]
  rw [show (15 : ℕ) = 14 + 1 from rfl, adjustLoop_succ, step109,
      if_pos ratio124_ge]

theorem adjustForContrast_eval :
    adjustForContrast ⟨34, 34, 34⟩ ⟨0, 0, 0⟩ 4.5 = ⟨124, 124, 124⟩ := by
  simp only [adjustForContrast]
  rw [if_neg (not_le.mpr ratio34_lt)]
  have hb : decide (getRelativeLuminance (⟨0, 0, 0⟩ : RGBt) < 0.5) = true := by
    rw [decide_eq_true_eq, lum_black]
    norm_num
  rw [hb, adjustLoop_eval]

/-- C7: for background black and text 34-gray (hex 222222) with target 4.5,
the background luminance is below a half so the repair loop lightens; the
initial ratio is below target; each iteration adds exactly 15 to every
channel (34, 49, 64, 79, 94, 109, 124); adjustForContrast returns the sixth
iterate 124-gray, whose ratio meets 4.5, while the fifth iterate is still
below target (so the loop ran exactly six of the twenty allowed iterations
and stopped early); and the contrast ratio is non-decreasing along the
iterates. -/
theorem claim_C7 :
    getRelativeLuminance ⟨0, 0, 0⟩ < 0.5 ∧
    getContrastRatio ⟨34, 34, 34⟩ ⟨0, 0, 0⟩ < 4.5 ∧
    adjustStep true ⟨34, 34, 34⟩ = ⟨49, 49, 49⟩ ∧
    adjustStep true ⟨49, 49, 49⟩ = ⟨64, 64, 64⟩ ∧
    adjustStep true ⟨64, 64, 64⟩ = ⟨79, 79, 79⟩ ∧
    adjustStep true ⟨79, 79, 79⟩ = ⟨94, 94, 94⟩ ∧
    adjustStep true ⟨94, 94, 94⟩ = ⟨109, 109, 109⟩ ∧
    adjustStep true ⟨109, 109, 109⟩ = ⟨124, 124, 124⟩ ∧
    adjustForContrast ⟨34, 34, 34⟩ ⟨0, 0, 0⟩ 4.5 = ⟨124, 124, 124⟩ ∧
    4.5 ≤ getContrastRatio ⟨124, 124, 124⟩ ⟨0, 0, 0⟩ ∧
    getContrastRatio ⟨109, 109, 109⟩ ⟨0, 0, 0⟩ < 4.5 ∧
    getContrastRatio ⟨34, 34, 34⟩ ⟨0, 0, 0⟩ ≤ getContrastRatio ⟨49, 49, 49⟩ ⟨0, 0, 0⟩ ∧
    getContrastRatio ⟨49, 49, 49⟩ ⟨0, 0, 0⟩ ≤ getContrastRatio ⟨64, 64, 64⟩ ⟨0, 0, 0⟩ ∧
    getContrastRatio ⟨64, 64, 64⟩ ⟨0, 0, 0⟩ ≤ getContrastRatio ⟨79, 79, 79⟩ ⟨0, 0, 0⟩ ∧
    getContrastRatio ⟨79, 79, 79⟩ ⟨0, 0, 0⟩ ≤ getContrastRatio ⟨94, 94, 94⟩ ⟨0, 0, 0⟩ ∧
    getContrastRatio ⟨94, 94, 94⟩ ⟨0, 0, 0⟩ ≤ getContrastRatio ⟨109, 109, 109⟩ ⟨0, 0, 0⟩ ∧
    getContrastRatio ⟨109, 109, 109⟩ ⟨0, 0, 0⟩ ≤ getContrastRatio ⟨124, 124, 124⟩ ⟨0, 0, 0⟩ :=
  ⟨by rw [lum_black]; norm_num, ratio34_lt, step34, step49, step64, step79, step94,
    step109, adjustForContrast_eval, ratio124_ge, ratio109_lt,
    ratio_gray_mono 34 49 (by norm_num) (by norm_num) (by norm_num) (by norm_num) (by norm_num) (by norm_num),
    ratio_gray_mono 49 64 (by norm_num) (by norm_num) (by norm_num) (by norm_num) (by norm_num) (by norm_num),
    ratio_gray_mono 64 79 (by norm_num) (by norm_num) (by norm_num) (by norm_num) (by norm_num) (by norm_num),
    ratio_gray_mono 79 94 (by norm_num) (by norm_num) (by norm_num) (by norm_num) (by norm_num) (by norm_num),
    ratio_gray_mono 94 109 (by norm_num) (by norm_num) (by norm_num) (by norm_num) (by norm_num) (by norm_num),
    ratio_gray_mono 109 124 (by norm_num) (by norm_num) (by norm_num) (by norm_num) (by norm_num) (by norm_num)⟩


set_option maxHeartbeats 1000000 in
/-- Exactness of the HSL round trip over the rationals: for channels in
[0, 255], converting to HSL and back reproduces each channel up to the final
Math.round, which is exact on integer channels. -/
theorem roundtrip_exact (rq gq bq aq : ℚ)
    (h0r : 0 ≤ rq) (h1r : rq ≤ 255) (h0g : 0 ≤ gq) (h1g : gq ≤ 255)
    (h0b : 0 ≤ bq) (h1b : bq ≤ 255) :
    hslToRGB (rgbToHSL ⟨rq, gq, bq, aq⟩) = ⟨jsRound rq, jsRound gq, jsRound bq, aq⟩ := by
  simp only [rgbToHSL]
  set R := rq / 255 with hR
  set G := gq / 255 with hG
  set B := bq / 255 with hB
  by_cases hc : max R (max G B) - min R (min G B) = 0
  · rw [if_pos hc]
    have hmaxmin : max R (max G B) = min R (min G B) := by linarith [sub_eq_zero.mp hc]
    have hRG : R = G := by
      have h1 : R ≤ max R (max G B) := le_max_left _ _
      have h2 : G ≤ max R (max G B) := le_trans (le_max_left _ _) (le_max_right _ _)
      have h3 : min R (min G B) ≤ R := min_le_left _ _
      have h4 : min R (min G B) ≤ G := le_trans (min_le_right _ _) (min_le_left _ _)
      linarith
    have hRB : R = B := by
      have h2 : B ≤ max R (max G B) := le_trans (le_max_right _ _) (le_max_right _ _)
      have h4 : min R (min G B) ≤ B := le_trans (min_le_right _ _) (min_le_right _ _)
      have h1 : R ≤ max R (max G B) := le_max_left _ _
      have h3 : min R (min G B) ≤ R := min_le_left _ _
      linarith
    have hL : (max R (max G B) + min R (min G B)) / 2 = R := by
      rw [← hRG, ← hRB]
      simp
    rw [hL]
    simp only [hslToRGB, if_true]
    have hgray : R * 255 = rq := by
      rw [hR]
      field_simp
    rw [hgray]
    have hrg : rq = gq := by
      have := hRG
      rw [hR, hG] at this
      have h255 : (255:ℚ) ≠ 0 := by norm_num
      field_simp at this
      linarith
    have hrb : rq = bq := by
      have := hRB
      rw [hR, hB] at this
      field_simp at this
      linarith
    rw [← hrg, ← hrb]
  · rw [if_neg hc]
    -- shared facts for the chromatic case
    have hR0 : 0 ≤ R := by rw [hR]; positivity
    have hG0 : 0 ≤ G := by rw [hG]; positivity
    have hB0 : 0 ≤ B := by rw [hB]; positivity
    have hR1 : R ≤ 1 := by rw [hR]; rw [div_le_one (by norm_num : (0:ℚ) < 255)]; exact h1r
    have hG1 : G ≤ 1 := by rw [hG]; rw [div_le_one (by norm_num : (0:ℚ) < 255)]; exact h1g
    have hB1 : B ≤ 1 := by rw [hB]; rw [div_le_one (by norm_num : (0:ℚ) < 255)]; exact h1b
    have hmnmx : R ⊓ (G ⊓ B) ≤ R ⊔ (G ⊔ B) := by
      exact le_trans (min_le_left _ _) (le_max_left _ _)
    have hcpos : 0 < R ⊔ (G ⊔ B) - R ⊓ (G ⊓ B) := by
      rcases lt_or_eq_of_le hmnmx with h | h
      · linarith
      · exact absurd (by linarith) hc
    have hmx1 : R ⊔ (G ⊔ B) ≤ 1 := by
      apply max_le hR1 (max_le hG1 hB1)
    have hmn0 : 0 ≤ R ⊓ (G ⊓ B) := by
      apply le_min hR0 (le_min hG0 hB0)
    have hRmx : R ≤ R ⊔ (G ⊔ B) := le_max_left _ _
    have hGmx : G ≤ R ⊔ (G ⊔ B) := le_trans (le_max_left _ _) (le_max_right _ _)
    have hBmx : B ≤ R ⊔ (G ⊔ B) := le_trans (le_max_right _ _) (le_max_right _ _)
    have hmnR : R ⊓ (G ⊓ B) ≤ R := min_le_left _ _
    have hmnG : R ⊓ (G ⊓ B) ≤ G := le_trans (min_le_right _ _) (min_le_left _ _)
    have hmnB : R ⊓ (G ⊓ B) ≤ B := le_trans (min_le_right _ _) (min_le_right _ _)
    have habs : |2 * ((R ⊔ (G ⊔ B) + R ⊓ (G ⊓ B)) / 2) - 1| < 1 := by
      rw [abs_lt]
      constructor
      · have : 0 < R ⊔ (G ⊔ B) + R ⊓ (G ⊓ B) := by linarith
        linarith
      · have : R ⊔ (G ⊔ B) + R ⊓ (G ⊓ B) < 2 := by linarith
        linarith
    have hD : 0 < 1 - |2 * ((R ⊔ (G ⊔ B) + R ⊓ (G ⊓ B)) / 2) - 1| := by linarith
    have hSpos : 0 < (R ⊔ (G ⊔ B) - R ⊓ (G ⊓ B)) /
        (1 - |2 * ((R ⊔ (G ⊔ B) + R ⊓ (G ⊓ B)) / 2) - 1|) := div_pos hcpos hD
    have hSne : ¬((R ⊔ (G ⊔ B) - R ⊓ (G ⊓ B)) /
        (1 - |2 * ((R ⊔ (G ⊔ B) + R ⊓ (G ⊓ B)) / 2) - 1|) = 0) := by
      exact ne_of_gt hSpos
    have hc2 : (1 - |2 * ((R ⊔ (G ⊔ B) + R ⊓ (G ⊓ B)) / 2) - 1|) *
        ((R ⊔ (G ⊔ B) - R ⊓ (G ⊓ B)) /
          (1 - |2 * ((R ⊔ (G ⊔ B) + R ⊓ (G ⊓ B)) / 2) - 1|)) =
        R ⊔ (G ⊔ B) - R ⊓ (G ⊓ B) := mul_div_cancel₀ _ (ne_of_gt hD)
    have hm : (R ⊔ (G ⊔ B) + R ⊓ (G ⊓ B)) / 2 - (R ⊔ (G ⊔ B) - R ⊓ (G ⊓ B)) / 2 =
        R ⊓ (G ⊓ B) := by ring
    have hR2 : R * 255 = rq := by rw [hR]; field_simp
    have hG2 : G * 255 = gq := by rw [hG]; field_simp
    have hB2 : B * 255 = bq := by rw [hB]; field_simp
    by_cases hxr : R ⊔ (G ⊔ B) = R
    · -- the red channel is the maximum
      rw [if_pos hxr]
      by_cases hbg : B ≤ G
      · -- green at least blue: hue in the first sextant (or exactly 60)
        have hmnB2 : R ⊓ (G ⊓ B) = B := by
          rw [min_eq_right hbg, min_eq_right (le_trans hBmx (le_of_eq hxr))]
        have ht0 : 0 ≤ (G - B) / (R ⊔ (G ⊔ B) - R ⊓ (G ⊓ B)) := by
          apply div_nonneg (by linarith) (le_of_lt hcpos)
        have ht1 : (G - B) / (R ⊔ (G ⊔ B) - R ⊓ (G ⊓ B)) ≤ 1 := by
          rw [div_le_one hcpos]
          have h1 := hGmx
          have h2 := hmnB2
          linarith
        rw [jsRem_six (by linarith) (by linarith)]
        rw [if_neg (by push_neg; positivity)]
        simp only [hslToRGB]
        rw [if_neg hSne, hc2, hm]
        rw [show (G - B) / (R ⊔ (G ⊔ B) - R ⊓ (G ⊓ B)) * 60 / 60 =
          (G - B) / (R ⊔ (G ⊔ B) - R ⊓ (G ⊓ B)) by ring]
        rw [jsRem_two_0 ht0 (by linarith)]
        rw [show |(G - B) / (R ⊔ (G ⊔ B) - R ⊓ (G ⊓ B)) - 1| =
            1 - (G - B) / (R ⊔ (G ⊔ B) - R ⊓ (G ⊓ B)) by
          rw [abs_of_nonpos (by linarith)]; ring]
        by_cases hsext : (G - B) / (R ⊔ (G ⊔ B) - R ⊓ (G ⊓ B)) * 60 < 60
        · simp only [hueTriple]
          rw [if_pos hsext]
          simp only [RGBA.mk.injEq]
          rw [hxr, hmnB2]
          have hRB : R - B ≠ 0 := by rw [hxr, hmnB2] at hcpos; linarith
          have hx : (R - B) * (1 - (1 - (G - B) / (R - B))) = G - B := by
            field_simp
          rw [hx]
          refine ⟨?_, ?_, ?_, trivial⟩ <;>
          · rw [Int.cast_inj]
            congr 1
            linarith [hR2, hG2, hB2]
        · simp only [hueTriple]
          rw [if_neg hsext, if_pos (by linarith)]
          have ht1e : (G - B) / (R ⊔ (G ⊔ B) - R ⊓ (G ⊓ B)) = 1 := by
            have h60 : 60 ≤ (G - B) / (R ⊔ (G ⊔ B) - R ⊓ (G ⊓ B)) * 60 :=
              not_lt.mp hsext
            linarith
          have hGB : G - B = R - B := by
            have := (div_eq_one_iff_eq (ne_of_gt hcpos)).mp ht1e
            rw [hxr, hmnB2] at this
            linarith
          simp only [RGBA.mk.injEq]
          rw [ht1e, hxr, hmnB2]
          refine ⟨?_, ?_, ?_, trivial⟩ <;>
          · rw [Int.cast_inj]
            congr 1
            ring_nf
            try linarith [hR2, hG2, hB2, hGB]
      · -- blue above green: hue wraps into the last sextant
        push_neg at hbg
        have hmnG2 : R ⊓ (G ⊓ B) = G := by
          rw [min_eq_left (le_of_lt hbg), min_eq_right (le_trans hGmx (le_of_eq hxr))]
        have htm : -1 ≤ (G - B) / (R ⊔ (G ⊔ B) - R ⊓ (G ⊓ B)) := by
          rw [neg_le, ← neg_div]
          rw [div_le_one hcpos]
          have h1 := hBmx
          have h2 := hmnG2
          rw [hxr] at h1
          linarith
        have htneg : (G - B) / (R ⊔ (G ⊔ B) - R ⊓ (G ⊓ B)) < 0 := by
          apply div_neg_of_neg_of_pos (by linarith) hcpos
        rw [jsRem_six (by linarith) (by linarith)]
        rw [if_pos (by nlinarith)]
        simp only [hslToRGB]
        rw [if_neg hSne, hc2, hm]
        rw [show ((G - B) / (R ⊔ (G ⊔ B) - R ⊓ (G ⊓ B)) * 60 + 360) / 60 =
          (G - B) / (R ⊔ (G ⊔ B) - R ⊓ (G ⊓ B)) + 6 by ring]
        rw [jsRem_two_4 (by linarith) (by linarith)]
        rw [show |(G - B) / (R ⊔ (G ⊔ B) - R ⊓ (G ⊓ B)) + 6 - 4 - 1| =
            (G - B) / (R ⊔ (G ⊔ B) - R ⊓ (G ⊓ B)) + 1 by
          rw [abs_of_nonneg (by linarith)]; ring]
        simp only [hueTriple]
        rw [if_neg (by nlinarith), if_neg (by nlinarith), if_neg (by nlinarith),
            if_neg (by nlinarith), if_neg (by nlinarith)]
        simp only [RGBA.mk.injEq]
        rw [hxr, hmnG2]
        have hRG : R - G ≠ 0 := by rw [hxr, hmnG2] at hcpos; linarith
        have hx : (R - G) * (1 - ((G - B) / (R - G) + 1)) = B - G := by
          field_simp
          try ring
        rw [hx]
        refine ⟨?_, ?_, ?_, trivial⟩ <;>
        · rw [Int.cast_inj]
          congr 1
          linarith [hR2, hG2, hB2]
    · rw [if_neg hxr]
      have hRlt : R < R ⊔ (G ⊔ B) := lt_of_le_of_ne hRmx (fun h => hxr h.symm)
      by_cases hxg : R ⊔ (G ⊔ B) = G
      · -- the green channel is the maximum
        rw [if_pos hxg]
        have hu1 : 1 < (B - R) / (R ⊔ (G ⊔ B) - R ⊓ (G ⊓ B)) + 2 := by
          have h1 : (-1 : ℚ) < (B - R) / (R ⊔ (G ⊔ B) - R ⊓ (G ⊓ B)) := by
            rw [lt_div_iff hcpos]
            have := hmnB
            linarith
          linarith
        have hu3 : (B - R) / (R ⊔ (G ⊔ B) - R ⊓ (G ⊓ B)) + 2 ≤ 3 := by
          have hle : B - R ≤ R ⊔ (G ⊔ B) - R ⊓ (G ⊓ B) := by
            have h1 := hBmx
            have h2 := hmnR
            linarith
          have := (div_le_one hcpos).mpr hle
          linarith
        rw [if_neg (by push_neg; nlinarith)]
        simp only [hslToRGB]
        rw [if_neg hSne, hc2, hm]
        rw [show ((B - R) / (R ⊔ (G ⊔ B) - R ⊓ (G ⊓ B)) + 2) * 60 / 60 =
          (B - R) / (R ⊔ (G ⊔ B) - R ⊓ (G ⊓ B)) + 2 by ring]
        by_cases hBR : R ≤ B
        · -- subcase with red the minimum
          have hmnR2 : R ⊓ (G ⊓ B) = R :=
            min_eq_left (le_min (le_trans hRmx (le_of_eq hxg)) hBR)
          have hu2l : 2 ≤ (B - R) / (R ⊔ (G ⊔ B) - R ⊓ (G ⊓ B)) + 2 := by
            have : 0 ≤ (B - R) / (R ⊔ (G ⊔ B) - R ⊓ (G ⊓ B)) :=
              div_nonneg (by linarith) (le_of_lt hcpos)
            linarith
          by_cases hu2 : ((B - R) / (R ⊔ (G ⊔ B) - R ⊓ (G ⊓ B)) + 2) * 60 < 180
          · -- hue strictly inside the third sextant
            rw [jsRem_two_2 hu2l (by linarith)]
            rw [show |(B - R) / (R ⊔ (G ⊔ B) - R ⊓ (G ⊓ B)) + 2 - 2 - 1| =
                1 - (B - R) / (R ⊔ (G ⊔ B) - R ⊓ (G ⊓ B)) by
              rw [abs_of_nonpos (by linarith)]; ring]
            simp only [hueTriple]
            rw [if_neg (by linarith), if_neg (by linarith), if_pos hu2]
            simp only [RGBA.mk.injEq]
            rw [hxg, hmnR2]
            have hGR : G - R ≠ 0 := by rw [hxg, hmnR2] at hcpos; linarith
            have hx : (G - R) * (1 - (1 - (B - R) / (G - R))) = B - R := by
              field_simp
            rw [hx]
            refine ⟨?_, ?_, ?_, trivial⟩ <;>
            · rw [Int.cast_inj]
              congr 1
              linarith [hR2, hG2, hB2]
          · -- hue exactly 180
            have hu3e : (B - R) / (R ⊔ (G ⊔ B) - R ⊓ (G ⊓ B)) + 2 = 3 := by
              have := not_lt.mp hu2
              linarith
            rw [hu3e]
            rw [jsRem_two_2 (by norm_num) (by norm_num)]
            rw [show |(3 : ℚ) - 2 - 1| = 0 by norm_num]
            simp only [hueTriple]
            rw [if_neg (by norm_num), if_neg (by norm_num), if_neg (by norm_num),
                if_pos (by norm_num)]
            have hBG : B - R = R ⊔ (G ⊔ B) - R ⊓ (G ⊓ B) := by
              have hne := ne_of_gt hcpos
              field_simp at hu3e
              linarith
            simp only [RGBA.mk.injEq]
            rw [hxg, hmnR2] at hBG ⊢
            refine ⟨?_, ?_, ?_, trivial⟩ <;>
            · rw [Int.cast_inj]
              congr 1
              ring_nf
              try linarith [hR2, hG2, hB2, hBG]
        · -- subcase with blue the minimum
          push_neg at hBR
          have hBG3 : B ≤ G := by
            rw [← hxg]
            exact hBmx
          have hmnB2 : R ⊓ (G ⊓ B) = B := by
            rw [min_eq_right hBG3, min_eq_right (le_of_lt hBR)]
          have hu2r : (B - R) / (R ⊔ (G ⊔ B) - R ⊓ (G ⊓ B)) + 2 < 2 := by
            have : (B - R) / (R ⊔ (G ⊔ B) - R ⊓ (G ⊓ B)) < 0 :=
              div_neg_of_neg_of_pos (by linarith) hcpos
            linarith
          rw [jsRem_two_0 (by linarith) (by linarith)]
          rw [show |(B - R) / (R ⊔ (G ⊔ B) - R ⊓ (G ⊓ B)) + 2 - 1| =
              (B - R) / (R ⊔ (G ⊔ B) - R ⊓ (G ⊓ B)) + 1 by
            rw [abs_of_nonneg (by linarith)]; ring]
          simp only [hueTriple]
          rw [if_neg (by linarith), if_pos (by linarith)]
          simp only [RGBA.mk.injEq]
          rw [hxg, hmnB2]
          have hGB : G - B ≠ 0 := by rw [hxg, hmnB2] at hcpos; linarith
          have hx : (G - B) * (1 - ((B - R) / (G - B) + 1)) = R - B := by
            field_simp
            try ring
          rw [hx]
          refine ⟨?_, ?_, ?_, trivial⟩ <;>
          · rw [Int.cast_inj]
            congr 1
            linarith [hR2, hG2, hB2]
      · -- the blue channel is the maximum
        rw [if_neg hxg]
        have hxb : R ⊔ (G ⊔ B) = B := by
          rcases max_choice R (G ⊔ B) with h | h
          · exact absurd h hxr
          · rcases max_choice G B with h2 | h2
            · exact absurd (h.trans h2) hxg
            · exact h.trans h2
        have hGlt : G < R ⊔ (G ⊔ B) := lt_of_le_of_ne hGmx (fun h => hxg h.symm)
        have hw3 : 3 < (R - G) / (R ⊔ (G ⊔ B) - R ⊓ (G ⊓ B)) + 4 := by
          have h1 : (-1 : ℚ) < (R - G) / (R ⊔ (G ⊔ B) - R ⊓ (G ⊓ B)) := by
            rw [lt_div_iff hcpos]
            have := hmnR
            linarith
          linarith
        have hw5 : (R - G) / (R ⊔ (G ⊔ B) - R ⊓ (G ⊓ B)) + 4 < 5 := by
          have hlt : R - G < R ⊔ (G ⊔ B) - R ⊓ (G ⊓ B) := by
            have := hmnG
            linarith
          have := (div_lt_one hcpos).mpr hlt
          linarith
        rw [if_neg (by push_neg; nlinarith)]
        simp only [hslToRGB]
        rw [if_neg hSne, hc2, hm]
        rw [show ((R - G) / (R ⊔ (G ⊔ B) - R ⊓ (G ⊓ B)) + 4) * 60 / 60 =
          (R - G) / (R ⊔ (G ⊔ B) - R ⊓ (G ⊓ B)) + 4 by ring]
        by_cases hRG3 : R < G
        · -- red the minimum: hue in the fourth sextant
          have hmnR2 : R ⊓ (G ⊓ B) = R :=
            min_eq_left (le_min (le_of_lt hRG3) (le_trans hRmx (le_of_eq hxb)))
          have hw4 : (R - G) / (R ⊔ (G ⊔ B) - R ⊓ (G ⊓ B)) + 4 < 4 := by
            have : (R - G) / (R ⊔ (G ⊔ B) - R ⊓ (G ⊓ B)) < 0 :=
              div_neg_of_neg_of_pos (by linarith) hcpos
            linarith
          rw [jsRem_two_2 (by linarith) (by linarith)]
          rw [show |(R - G) / (R ⊔ (G ⊔ B) - R ⊓ (G ⊓ B)) + 4 - 2 - 1| =
              (R - G) / (R ⊔ (G ⊔ B) - R ⊓ (G ⊓ B)) + 1 by
            rw [abs_of_nonneg (by linarith)]; ring]
          simp only [hueTriple]
          rw [if_neg (by linarith), if_neg (by linarith), if_neg (by linarith),
              if_pos (by linarith)]
          simp only [RGBA.mk.injEq]
          rw [hxb, hmnR2]
          have hBRne : B - R ≠ 0 := by rw [hxb, hmnR2] at hcpos; linarith
          have hx : (B - R) * (1 - ((R - G) / (B - R) + 1)) = G - R := by
            field_simp
            try ring
          rw [hx]
          refine ⟨?_, ?_, ?_, trivial⟩ <;>
          · rw [Int.cast_inj]
            congr 1
            linarith [hR2, hG2, hB2]
        · -- green the minimum: hue in the fifth sextant
          push_neg at hRG3
          have hGB2 : G < B := by
            rw [← hxb]
            exact hGlt
          have hmnG2 : R ⊓ (G ⊓ B) = G := by
            rw [min_eq_left (le_of_lt hGB2), min_eq_right hRG3]
          have hw4 : 4 ≤ (R - G) / (R ⊔ (G ⊔ B) - R ⊓ (G ⊓ B)) + 4 := by
            have : 0 ≤ (R - G) / (R ⊔ (G ⊔ B) - R ⊓ (G ⊓ B)) :=
              div_nonneg (by linarith) (le_of_lt hcpos)
            linarith
          rw [jsRem_two_4 hw4 (by linarith)]
          rw [show |(R - G) / (R ⊔ (G ⊔ B) - R ⊓ (G ⊓ B)) + 4 - 4 - 1| =
              1 - (R - G) / (R ⊔ (G ⊔ B) - R ⊓ (G ⊓ B)) by
            rw [abs_of_nonpos (by linarith)]; ring]
          simp only [hueTriple]
          rw [if_neg (by linarith), if_neg (by linarith), if_neg (by linarith),
              if_neg (by linarith), if_pos (by linarith)]
          simp only [RGBA.mk.injEq]
          rw [hxb, hmnG2]
          have hBGne : B - G ≠ 0 := by rw [hxb, hmnG2] at hcpos; linarith
          have hx : (B - G) * (1 - (1 - (R - G) / (B - G))) = R - G := by
            field_simp
          rw [hx]
          refine ⟨?_, ?_, ?_, trivial⟩ <;>
          · rw [Int.cast_inj]
            congr 1
            linarith [hR2, hG2, hB2]

/-- Claim C6 (confirmed). For every RGB triple with integer channels in
[0, 255] and alpha 1, hslToRGB (rgbToHSL rgb) yields channels that each
differ from the input by at most 1; over the rationals the round trip is in
fact exact. -/
theorem claim_C6 (r g b : ℕ) (hr : r ≤ 255) (hg : g ≤ 255) (hb : b ≤ 255) :
    |(hslToRGB (rgbToHSL ⟨(r : ℚ), (g : ℚ), (b : ℚ), 1⟩)).r - (r : ℚ)| ≤ 1 ∧
    |(hslToRGB (rgbToHSL ⟨(r : ℚ), (g : ℚ), (b : ℚ), 1⟩)).g - (g : ℚ)| ≤ 1 ∧
    |(hslToRGB (rgbToHSL ⟨(r : ℚ), (g : ℚ), (b : ℚ), 1⟩)).b - (b : ℚ)| ≤ 1 := by
  have h := roundtrip_exact (r : ℚ) (g : ℚ) (b : ℚ) 1 (by positivity)
    (by exact_mod_cast hr) (by positivity) (by exact_mod_cast hg) (by positivity)
    (by exact_mod_cast hb)
  rw [h]
  dsimp only
  rw [jsRound_natCast, jsRound_natCast, jsRound_natCast]
  push_cast
  norm_num

/-- Witness for claim C6: the bound instantiated at the triple (3, 100, 200). -/
theorem claim_C6_witness :
    |(hslToRGB (rgbToHSL ⟨(3 : ℚ), (100 : ℚ), (200 : ℚ), 1⟩)).r - (3 : ℚ)| ≤ 1 ∧
    |(hslToRGB (rgbToHSL ⟨(3 : ℚ), (100 : ℚ), (200 : ℚ), 1⟩)).g - (100 : ℚ)| ≤ 1 ∧
    |(hslToRGB (rgbToHSL ⟨(3 : ℚ), (100 : ℚ), (200 : ℚ), 1⟩)).b - (200 : ℚ)| ≤ 1 := by
  have h := claim_C6 3 100 200 (by decide) (by decide) (by decide)
  push_cast at h
  exact h


end Themifier
